import Mathlib

/-!
Verification development for `validate_email.py` (viable-hartman/validate_email).

The Python module is shallowly embedded:
* the RFC 2822 `addr-spec` regular expression (source lines 51-74) is built
  from the same tokens over a small regular-expression engine, and matching is
  decided with Brzozowski derivatives;
* the process-wide dictionaries `MX_DNS_CACHE` / `MX_CHECK_CACHE` become
  association lists threaded through the functions;
* the external effects (SQLite `connectionView` lookups, DNS MX queries, SMTP
  sessions) become oracle functions bundled in an `Env`;
* Python exceptions that escape a function become the `Except.error` side of
  the result, and every function also returns the network events it caused
  (`NetEvent`), so that "no DNS query is issued" and "no connection is opened"
  are statable.

All character classes are read in their ASCII meaning (Python's `re` module
extends `\w` and `\s` to further Unicode characters; every string the claims
touch is ASCII).
-/

namespace ValidateEmail

/-! ## A small regular-expression engine (Brzozowski derivatives) -/

/-- Regular expressions over characters; `cls p` matches a single character
satisfying `p` (a character class). -/
inductive RE where
  | emp : RE
  | eps : RE
  | cls : (Char → Bool) → RE
  | cat : RE → RE → RE
  | alt : RE → RE → RE
  | star : RE → RE

/-- Does the expression accept the empty string? -/
def RE.nullable : RE → Bool
  | .emp => false
  | .eps => true
  | .cls _ => false
  | .cat a b => a.nullable && b.nullable
  | .alt a b => a.nullable || b.nullable
  | .star _ => true

/-- Smart union constructor (prunes the empty language). -/
def RE.mkAlt : RE → RE → RE
  | .emp, r => r
  | r, .emp => r
  | a, b => .alt a b

/-- Smart concatenation constructor (prunes empty language and units). -/
def RE.mkCat : RE → RE → RE
  | .emp, _ => .emp
  | _, .emp => .emp
  | .eps, r => r
  | r, .eps => r
  | a, b => .cat a b

/-- Brzozowski derivative of an expression with respect to one character. -/
def RE.deriv : RE → Char → RE
  | .emp, _ => .emp
  | .eps, _ => .emp
  | .cls p, c => if p c then .eps else .emp
  | .cat a b, c =>
      if a.nullable then .mkAlt (.mkCat (a.deriv c) b) (b.deriv c)
      else .mkCat (a.deriv c) b
  | .alt a b, c => .mkAlt (a.deriv c) (b.deriv c)
  | .star a, c => .mkCat (a.deriv c) (.star a)

/-- Whole-string matching by repeated derivation. -/
def RE.matches : RE → List Char → Bool
  | r, [] => r.nullable
  | r, c :: cs => (r.deriv c).matches cs

/-- `r?` of the source patterns. -/
def RE.opt (r : RE) : RE := .alt .eps r

/-- `r+` of the source patterns. -/
def RE.plus (r : RE) : RE := .cat r (.star r)

/-- A single literal character. -/
def RE.chr (c : Char) : RE := .cls (fun d => d == c)

/-! ## The token patterns of `validate_email.py` lines 51-74

Each definition mirrors the string-concatenated pattern of the source; the
character classes become Boolean predicates on the character's code point. -/

/-- Python `\s` (ASCII part): space, tab, newline, carriage return, vertical
tab, form feed. -/
def isSpaceChar (c : Char) : Bool :=
  c.toNat == 32 || c.toNat == 9 || c.toNat == 10 ||
  c.toNat == 11 || c.toNat == 12 || c.toNat == 13

/-- Python `\w` (ASCII part): letters, digits and underscore. -/
def isWordChar (c : Char) : Bool :=
  c.isAlphanum || c.toNat == 95

/-- `WSP = r'[\s]'` (source line 51). -/
def WSP : RE := .cls isSpaceChar

/-- `CRLF = r'(?:\r\n)'` (source line 52). -/
def CRLF : RE := .cat (.chr (Char.ofNat 13)) (.chr (Char.ofNat 10))

/-- `NO_WS_CTL = r'\x01-\x08\x0b\x0c\x0f-\x1f\x7f'` (source line 53), as a
class predicate. -/
def isNoWsCtl (c : Char) : Bool :=
  let n := c.toNat
  (1 ≤ n && n ≤ 8) || n == 11 || n == 12 || (15 ≤ n && n ≤ 31) || n == 127

/-- `QUOTED_PAIR = r'(?:\\.)'` (source line 54); `.` matches any character
except a newline. -/
def QUOTED_PAIR : RE :=
  .cat (.chr (Char.ofNat 92)) (.cls (fun c => c.toNat != 10))

/-- `FWS = r'(?:(?:WSP*CRLF)?WSP+)'` (source line 55). -/
def FWS : RE := .cat (RE.opt (.cat (.star WSP) CRLF)) (RE.plus WSP)

/-- `CTEXT` class (source line 56): NO_WS_CTL, \x21-\x27, \x2a-\x5b,
\x5d-\x7e. -/
def isCText (c : Char) : Bool :=
  let n := c.toNat
  isNoWsCtl c || (33 ≤ n && n ≤ 39) || (42 ≤ n && n ≤ 91) || (93 ≤ n && n ≤ 126)

/-- `CCONTENT = r'(?:CTEXT|QUOTED_PAIR)'` (source line 58). -/
def CCONTENT : RE := .alt (.cls isCText) QUOTED_PAIR

/-- `COMMENT = r'\((?:FWS?CCONTENT)*FWS?\)'` (source line 59). -/
def COMMENT : RE :=
  .cat (.chr '(')
    (.cat (.star (.cat (RE.opt FWS) CCONTENT))
      (.cat (RE.opt FWS) (.chr ')')))

/-- `CFWS = r'(?:FWS?COMMENT)*(?:FWS?COMMENT|FWS)'` (source line 60). -/
def CFWS : RE :=
  .cat (.star (.cat (RE.opt FWS) COMMENT))
    (.alt (.cat (RE.opt FWS) COMMENT) FWS)

/-- `ATEXT` class (source line 61): `\w` plus
`! # $ % & ' * + - / = ? ^ \x60 \x7b \x7c \x7d ~` (the code points below). -/
def isAText (c : Char) : Bool :=
  isWordChar c ||
  [33, 35, 36, 37, 38, 39, 42, 43, 45, 47, 61, 63, 94, 96,
   123, 124, 125, 126].contains c.toNat

/-- `ATOM = CFWS?ATEXT+CFWS?` (source line 62). -/
def ATOM : RE := .cat (RE.opt CFWS) (.cat (RE.plus (.cls isAText)) (RE.opt CFWS))

/-- `DOT_ATOM_TEXT = ATEXT+(?:\.ATEXT+)*` (source line 63). -/
def DOT_ATOM_TEXT : RE :=
  .cat (RE.plus (.cls isAText))
    (.star (.cat (.chr '.') (RE.plus (.cls isAText))))

/-- `DOT_ATOM = CFWS?DOT_ATOM_TEXT CFWS?` (source line 64). -/
def DOT_ATOM : RE := .cat (RE.opt CFWS) (.cat DOT_ATOM_TEXT (RE.opt CFWS))

/-- `QTEXT` class (source line 65): NO_WS_CTL, \x21, \x23-\x5b, \x5d-\x7e. -/
def isQText (c : Char) : Bool :=
  let n := c.toNat
  isNoWsCtl c || n == 33 || (35 ≤ n && n ≤ 91) || (93 ≤ n && n ≤ 126)

/-- `QCONTENT = r'(?:QTEXT|QUOTED_PAIR)'` (source line 66). -/
def QCONTENT : RE := .alt (.cls isQText) QUOTED_PAIR

/-- `QUOTED_STRING = CFWS?"(?:FWS?QCONTENT)*FWS?"CFWS?` (source line 67). -/
def QUOTED_STRING : RE :=
  .cat (RE.opt CFWS)
    (.cat (.chr '"')
      (.cat (.star (.cat (RE.opt FWS) QCONTENT))
        (.cat (RE.opt FWS) (.cat (.chr '"') (RE.opt CFWS)))))

/-- `LOCAL_PART = r'(?:DOT_ATOM|QUOTED_STRING)'` (source line 68). -/
def LOCAL_PART : RE := .alt DOT_ATOM QUOTED_STRING

/-- `DTEXT` class (source line 69): NO_WS_CTL, \x21-\x5a, \x5e-\x7e. -/
def isDText (c : Char) : Bool :=
  let n := c.toNat
  isNoWsCtl c || (33 ≤ n && n ≤ 90) || (94 ≤ n && n ≤ 126)

/-- `DCONTENT = r'(?:DTEXT|QUOTED_PAIR)'` (source line 70). -/
def DCONTENT : RE := .alt (.cls isDText) QUOTED_PAIR

/-- `DOMAIN_LITERAL = CFWS?\[(?:FWS?DCONTENT)*FWS?\]CFWS?` (source line 71). -/
def DOMAIN_LITERAL : RE :=
  .cat (RE.opt CFWS)
    (.cat (.chr '[')
      (.cat (.star (.cat (RE.opt FWS) DCONTENT))
        (.cat (RE.opt FWS) (.cat (.chr ']') (RE.opt CFWS)))))

/-- `DOMAIN = r'(?:DOT_ATOM|DOMAIN_LITERAL)'` (source line 72). -/
def DOMAIN : RE := .alt DOT_ATOM DOMAIN_LITERAL

/-- `ADDR_SPEC = LOCAL_PART@DOMAIN` (source line 73). -/
def ADDR_SPEC : RE := .cat LOCAL_PART (.cat (.chr '@') DOMAIN)

/-- `re.match(VALID_ADDRESS_REGEXP, email) is not None` for the anchored
pattern `'^' + ADDR_SPEC + '$'` (source lines 74 and 201).  Python's `$`
matches at the end of the string or just before a single trailing newline. -/
def matchesValidAddress (email : String) : Bool :=
  ADDR_SPEC.matches email.toList ||
    (match email.toList.getLast? with
     | some c => c == Char.ofNat 10 && ADDR_SPEC.matches email.toList.dropLast
     | none => false)

end ValidateEmail

namespace ValidateEmail

/-! ## Python string helpers -/

/-- Split a character list at every occurrence of `sep` (the behaviour of
Python `str.split` with a one-character separator). -/
def splitOnChar (sep : Char) : List Char → List (List Char)
  | [] => [[]]
  | c :: cs =>
      match splitOnChar sep cs with
      | [] => [[]]
      | w :: ws => if c == sep then [] :: w :: ws else (c :: w) :: ws

/-- Join character lists with `sep` (the behaviour of Python
`sep.join(...)`). -/
def joinWithChar (sep : Char) : List (List Char) → List Char
  | [] => []
  | [w] => w
  | w :: ws => w ++ sep :: joinWithChar sep ws

/-- Python `email.rsplit('@', 1)`: split at the last `'@'`; a string without
`'@'` yields the one-element list `[email]`. -/
def pyRsplitAt1 (email : String) : List String :=
  let parts := splitOnChar '@' email.toList
  if parts.length ≤ 1 then [email]
  else [String.mk (joinWithChar '@' parts.dropLast), String.mk parts.getLast!]

/-- Python `email[email.find('@') + 1:]` (source line 207): everything after
the first `'@'`; with no `'@'`, `find` is `-1` and the slice is the whole
string. -/
def hostnameOf (email : String) : String :=
  let parts := splitOnChar '@' email.toList
  if parts.length ≤ 1 then email else String.mk (joinWithChar '@' parts.tail)

/-- Python `'.'.join(server.split('.')[-2:])` (source line 140): the last two
dot-separated labels. -/
def topLevelDomainOf (server : String) : String :=
  let parts := splitOnChar '.' server.toList
  String.mk (joinWithChar '.' (parts.drop (parts.length - 2)))

/-- Python dictionary insertion on an association list: an existing key keeps
its position and gets the new value, a new key is appended. -/
def dictInsert {α : Type} (m : List (String × α)) (k : String) (v : α) :
    List (String × α) :=
  match m with
  | [] => [(k, v)]
  | (k', v') :: rest =>
      if k' == k then (k, v) :: rest else (k', v') :: dictInsert rest k v

/-! ## The disposable-domain filter

`is_disposable` (source lines 88-94) computes
`email_domain = email.rsplit('@', 1)` — a Python list — and then evaluates
`email_domain in _disposable`, comparing that list against the strings of
`_disposable`.  The embedding keeps both operands as Python values so the
comparison is performed exactly as the interpreter performs it. -/

/-- The two Python value shapes compared by `is_disposable`. -/
inductive PyVal where
  | str : String → PyVal
  | list : List String → PyVal
deriving DecidableEq

/-- Python `==` on those values: a list never equals a string. -/
def pyEq : PyVal → PyVal → Bool
  | .str a, .str b => a == b
  | .list a, .list b => a == b
  | _, _ => false

/-- The static disposable-domain list `_disposable` (source lines 283-636). -/
def _disposable : List String :=
  [ "0-mail.com", "027168.com", "0815.ru", "0815.ry", "0815.su", "0845.ru", "0clickemail.com",
   "0wnd.net", "0wnd.org", "0x207.info", "1-8.biz", "100likers.com", "10mail.com", "10mail.org",
   "10minut.com.pl", "10minutemail.cf", "10minutemail.co.uk", "10minutemail.co.za",
   "10minutemail.com", "10minutemail.de", "10minutemail.ga", "10minutemail.gq", "10minutemail.ml",
   "10minutemail.net", "10minutesmail.com", "10x9.com", "123-m.com", "12houremail.com",
   "12minutemail.com", "12minutemail.net", "140unichars.com", "147.cl", "14n.co.uk", "1ce.us",
   "1chuan.com", "1fsdfdsfsdf.tk", "1mail.ml", "1pad.de", "1st-forms.com", "1to1mail.org",
   "1zhuan.com", "20email.eu", "20email.it", "20mail.in", "20mail.it", "20minutemail.com",
   "2120001.net", "21cn.com", "24hourmail.com", "24hourmail.net", "2fdgdfgdfgdf.tk", "2prong.com",
   "30minutemail.com", "33mail.com", "36ru.com", "3d-painting.com", "3l6.com", "3mail.ga",
   "3trtretgfrfe.tk", "4-n.us", "418.dk", "42o.org", "4gfdsgfdgfd.tk", "4mail.cf", "4mail.ga",
   "4warding.com", "4warding.net", "4warding.org", "5ghgfhfghfgh.tk", "5gramos.com", "5mail.cf",
   "5mail.ga", "5oz.ru", "5x25.com", "60minutemail.com", "672643.net", "675hosting.com",
   "675hosting.net", "675hosting.org", "6hjgjhgkilkj.tk", "6ip.us", "6mail.cf", "6mail.ga",
   "6mail.ml", "6paq.com", "6url.com", "75hosting.com", "75hosting.net", "75hosting.org",
   "7days-printing.com", "7mail.ga", "7mail.ml", "7tags.com", "80665.com", "8127ep.com", "8mail.cf",
   "8mail.ga", "8mail.ml", "99experts.com", "9mail.cf", "9ox.net", "a-bc.net", "a45.in",
   "abakiss.com", "abcmail.email", "abusemail.de", "abuser.eu", "abyssmail.com", "ac20mail.in",
   "academiccommunity.com", "acentri.com", "adiq.eu", "adobeccepdm.com", "adpugh.org", "adsd.org",
   "advantimo.com", "adwaterandstir.com", "aegia.net", "aegiscorp.net", "aelo.es", "aeonpsi.com",
   "afrobacon.com", "agedmail.com", "agger.ro", "agtx.net", "ahk.jp", "airsi.de", "ajaxapp.net",
   "akapost.com", "akerd.com", "al-qaeda.us", "aligamel.com", "alisongamel.com", "alivance.com",
   "alldirectbuy.com", "allowed.org", "allthegoodnamesaretaken.org", "alph.wtf", "ama-trade.de",
   "ama-trans.de", "amail.com", "amail4.me", "amazon-aws.org", "amelabs.com", "amilegit.com",
   "amiri.net", "amiriindustries.com", "ampsylike.com", "anappfor.com", "anappthat.com",
   "andthen.us", "animesos.com", "anit.ro", "ano-mail.net", "anon-mail.de", "anonbox.net",
   "anonmails.de", "anonymail.dk", "anonymbox.com", "anonymized.org", "anonymousness.com",
   "ansibleemail.com", "anthony-junkmail.com", "antireg.com", "antireg.ru", "antispam.de",
   "antispam24.de", "antispammail.de", "apfelkorps.de", "aphlog.com", "appc.se", "appinventor.nl",
   "appixie.com", "apps.dj", "arduino.hk", "armyspy.com", "aron.us", "arroisijewellery.com",
   "artman-conception.com", "arurgitu.gq", "arvato-community.de", "aschenbrandt.net", "asdasd.nl",
   "asdasd.ru", "ashleyandrew.com", "astroempires.info", "asu.mx", "asu.su", "at0mik.org",
   "augmentationtechnology.com", "auti.st", "autorobotica.com", "autotwollow.com", "aver.com",
   "avls.pt", "awatum.de", "awiki.org", "axiz.org", "azcomputerworks.com", "azmeil.tk",
   "b1of96u.com", "b2cmail.de", "badgerland.eu", "badoop.com", "bareed.ws", "barryogorman.com",
   "bartdevos.be", "basscode.org", "bauwerke-online.com", "bazaaboom.com", "bcast.ws", "bcb.ro",
   "bccto.me", "bearsarefuzzy.com", "beddly.com", "beefmilk.com", "belljonestax.com",
   "benipaula.org", "bestchoiceusedcar.com", "betr.co", "bgx.ro", "bidourlnks.com", "big1.us",
   "bigprofessor.so", "bigstring.com", "bigwhoop.co.za", "bij.pl", "binkmail.com",
   "bio-muesli.info", "bio-muesli.net", "blackmarket.to", "bladesmail.net", "blip.ch",
   "blogmyway.org", "bluedumpling.info", "bluewerks.com", "bobmail.info", "bobmurchison.com",
   "bofthew.com", "bonobo.email", "bookthemmore.com", "bootybay.de", "borged.com", "borged.net",
   "borged.org", "bot.nu", "boun.cr", "bouncr.com", "boxformail.in", "boximail.com",
   "boxtemp.com.br", "brandallday.net", "brasx.org", "breakthru.com", "brefmail.com",
   "brennendesreich.de", "briggsmarcus.com", "broadbandninja.com", "bsnow.net", "bspamfree.org",
   "bspooky.com", "bst-72.com", "btb-notes.com", "btc.email", "buffemail.com", "bugmenever.com",
   "bugmenot.com", "bulrushpress.com", "bum.net", "bumpymail.com", "bunchofidiots.com", "bund.us",
   "bundes-li.ga", "bunsenhoneydew.com", "burnthespam.info", "burstmail.info",
   "businessbackend.com", "businesssuccessislifesuccess.com", "buspad.org", "buymoreplays.com",
   "buyordie.info", "buyusedlibrarybooks.org", "byebyemail.com", "byespm.com", "byom.de", "c2.hu",
   "c51vsgq.com", "cachedot.net", "californiafitnessdeals.com", "cam4you.cc", "cane.pw",
   "casualdx.com", "cavi.mx", "cbair.com", "cc.liamria", "cdpa.cc", "ceed.se", "cek.pm",
   "cellurl.com", "centermail.com", "centermail.net", "ch.tc", "chacuo.net", "chammy.info",
   "cheatmail.de", "chickenkiller.com", "chielo.com", "childsavetrust.org", "chilkat.com",
   "chithinh.com", "chogmail.com", "choicemail1.com", "chong-mail.com", "chong-mail.net",
   "chong-mail.org", "chumpstakingdumps.com", "cigar-auctions.com", "civx.org", "ckiso.com",
   "cl-cl.org", "cl0ne.net", "clandest.in", "clipmail.eu", "clixser.com", "clrmail.com",
   "cmail.com", "cmail.net", "cmail.org", "cnamed.com", "cnew.ir", "cnew.ir", "cnmsg.net",
   "cnsds.de", "cobarekyo1.ml", "codeandscotch.com", "codivide.com", "coieo.com", "coldemail.info",
   "com.ar", "compareshippingrates.org", "completegolfswing.com", "comwest.de", "consumerriot.com",
   "coolandwacky.us", "coolimpool.org", "correo.blogos.net", "cosmorph.com",
   "courrieltemporaire.com", "coza.ro", "crankhole.com", "crapmail.org", "crastination.de",
   "crazespaces.pw", "crazymailing.com", "crossroadsmail.com", "cszbl.com", "ctos.ch", "cu.cc",
   "cubiclink.com", "curryworld.de", "cust.in", "cuvox.de", "cylab.org", "d3p.dk", "dab.ro",
   "dacoolest.com", "daemsteam.com", "daintly.com", "dammexe.net", "dandikmail.com",
   "darkharvestfilms.com", "daryxfox.net", "dash-pads.com", "dataarca.com", "datafilehost",
   "datarca.com", "datazo.ca", "davidkoh.net", "davidlcreative.com", "dayrep.com", "dbunker.com",
   "dcemail.com", "ddcrew.com", "de-a.org", "deadaddress.com", "deadchildren.org", "deadfake.cf",
   "deadfake.ga", "deadfake.ml", "deadfake.tk", "deadspam.com", "deagot.com", "dealja.com",
   "dealrek.com", "deekayen.us", "defomail.com", "degradedfun.net", "delayload.com",
   "delayload.net", "delikkt.de", "der-kombi.de", "derkombi.de", "derluxuswagen.de", "despam.it",
   "despammed.com", "devnullmail.com", "dharmatel.net", "dhm.ro", "dialogus.com",
   "diapaulpainting.com", "digitalmariachis.com", "digitalsanctuary.com", "dildosfromspace.com",
   "dingbone.com", "discard.cf", "discard.email", "discard.ga", "discard.gq", "discard.ml",
   "discard.tk", "discardmail.com", "discardmail.de", "dispo.in", "dispomail.eu",
   "disposable-email.ml", "disposable.cf", "disposable.ga", "disposable.ml",
   "disposableaddress.com", "disposableemailaddresses.com", "disposableinbox.com", "dispose.it",
   "disposeamail.com", "disposemail.com", "dispostable.com", "divermail.com", "divismail.ru",
   "dlemail.ru", "dnses.ro", "dob.jp", "dodgeit.com", "dodgemail.de", "dodgit.com", "dodgit.org",
   "dodsi.com", "doiea.com", "dolphinnet.net", "domforfb1.tk", "domforfb18.tk", "domforfb19.tk",
   "domforfb2.tk", "domforfb23.tk", "domforfb27.tk", "domforfb29.tk", "domforfb3.tk",
   "domforfb4.tk", "domforfb5.tk", "domforfb6.tk", "domforfb7.tk", "domforfb8.tk", "domforfb9.tk",
   "domozmail.com", "donemail.ru", "dontreg.com", "dontsendmespam.de", "doquier.tk", "dotman.de",
   "dotmsg.com", "dotslashrage.com", "douchelounge.com", "dozvon-spb.ru", "dp76.com", "drdrb.com",
   "drdrb.net", "dred.ru", "drevo.si", "drivetagdev.com", "droolingfanboy.de", "dropcake.de",
   "droplar.com", "dropmail.me", "dspwebservices.com", "duam.net", "dudmail.com", "duk33.com",
   "dukedish.com", "dump-email.info", "dumpandjunk.com", "dumpmail.de", "dumpyemail.com",
   "durandinterstellar.com", "duskmail.com", "dyceroprojects.com", "dz17.net", "e-mail.com",
   "e-mail.org", "e3z.de", "e4ward.com", "easy-trash-mail.com", "easytrashmail.com",
   "ebeschlussbuch.de", "ecallheandi.com", "edgex.ru", "edinburgh-airporthotels.com", "edu.my",
   "edu.sg", "edv.to", "ee1.pl", "ee2.pl", "eelmail.com", "efxs.ca", "einmalmail.de", "einrot.com",
   "einrot.de", "eintagsmail.de", "elearningjournal.org", "electro.mn", "elitevipatlantamodels.com",
   "email-fake.cf", "email-fake.ga", "email-fake.gq", "email-fake.ml", "email-fake.tk",
   "email-jetable.fr", "email.cbes.net", "email.net", "email60.com", "emailage.cf", "emailage.ga",
   "emailage.gq", "emailage.ml", "emailage.tk", "emaildienst.de", "emailgo.de", "emailias.com",
   "emailigo.de", "emailinfive.com", "emailisvalid.com", "emaillime.com", "emailmiser.com",
   "emailproxsy.com", "emailresort.com", "emails.ga", "emailsensei.com", "emailsingularity.net",
   "emailspam.cf", "emailspam.ga", "emailspam.gq", "emailspam.ml", "emailspam.tk",
   "emailtemporanea.com", "emailtemporanea.net", "emailtemporar.ro", "emailtemporario.com.br",
   "emailthe.net", "emailtmp.com", "emailto.de", "emailwarden.com", "emailx.at.hm", "emailxfer.com",
   "emailz.cf", "emailz.ga", "emailz.gq", "emailz.ml", "emeil.in", "emeil.ir", "emeraldwebmail.com",
   "emil.com", "emkei.cf", "emkei.ga", "emkei.gq", "emkei.ml", "emkei.tk", "eml.pp.ua", "emz.net",
   "enterto.com", "epb.ro", "ephemail.net", "ephemeral.email", "ericjohnson.ml", "ero-tube.org",
   "esc.la", "escapehatchapp.com", "esemay.com", "esgeneri.com", "esprity.com", "etranquil.com",
   "etranquil.net", "etranquil.org", "evanfox.info", "evopo.com", "example.com",
   "exitstageleft.net", "explodemail.com", "express.net.ua", "extremail.ru", "eyepaste.com",
   "ez.lv", "ezfill.com", "ezstest.com", "f4k.es", "facebook-email.cf", "facebook-email.ga",
   "facebook-email.ml", "facebookmail.gq", "facebookmail.ml", "fadingemail.com", "fag.wf",
   "failbone.com", "faithkills.com", "fake-email.pp.ua", "fake-mail.cf", "fake-mail.ga",
   "fake-mail.ml", "fakedemail.com", "fakeinbox.cf", "fakeinbox.com", "fakeinbox.ga",
   "fakeinbox.ml", "fakeinbox.tk", "fakeinformation.com", "fakemail.fr", "fakemailgenerator.com",
   "fakemailz.com", "fammix.com", "fangoh.com", "fansworldwide.de", "fantasymail.de",
   "farrse.co.uk", "fastacura.com", "fastchevy.com", "fastchrysler.com", "fasternet.biz",
   "fastkawasaki.com", "fastmazda.com", "fastmitsubishi.com", "fastnissan.com", "fastsubaru.com",
   "fastsuzuki.com", "fasttoyota.com", "fastyamaha.com", "fatflap.com", "fdfdsfds.com",
   "fer-gabon.org", "fettometern.com", "fictionsite.com", "fightallspam.com", "figjs.com",
   "figshot.com", "fiifke.de", "filbert4u.com", "filberts4u.com", "film-blog.biz", "filzmail.com",
   "fir.hk", "fivemail.de", "fixmail.tk", "fizmail.com", "fleckens.hu", "flemail.ru", "flowu.com",
   "flurred.com", "fly-ts.de", "flyinggeek.net", "flyspam.com", "foobarbot.net", "footard.com",
   "forecastertests.com", "forgetmail.com", "fornow.eu", "forspam.net", "foxja.com",
   "foxtrotter.info", "fr.nf", "fr33mail.info", "frapmail.com", "free-email.cf", "free-email.ga",
   "freebabysittercam.com", "freeblackbootytube.com", "freecat.net", "freedompop.us",
   "freefattymovies.com", "freeletter.me", "freemail.hu", "freemail.ms", "freemails.cf",
   "freemails.ga", "freemails.ml", "freeplumpervideos.com", "freeschoolgirlvids.com",
   "freesistercam.com", "freeteenbums.com", "freundin.ru", "friendlymail.co.uk", "front14.org",
   "ftp.sh", "ftpinc.ca", "fuckedupload.com", "fuckingduh.com", "fudgerub.com", "fuirio.com",
   "funnycodesnippets.com", "furzauflunge.de", "fux0ringduh.com", "fxnxs.com", "fyii.de",
   "g4hdrop.us", "gaggle.net", "galaxy.tv", "gally.jp", "gamegregious.com", "garbagecollector.org",
   "garbagemail.org", "gardenscape.ca", "garizo.com", "garliclife.com", "garrymccooey.com",
   "gav0.com", "gawab.com", "gehensiemirnichtaufdensack.de", "geldwaschmaschine.de", "gelitik.in",
   "genderfuck.net", "geschent.biz", "get-mail.cf", "get-mail.ga", "get-mail.ml", "get-mail.tk",
   "get1mail.com", "get2mail.fr", "getairmail.cf", "getairmail.com", "getairmail.ga",
   "getairmail.gq", "getairmail.ml", "getairmail.tk", "geteit.com", "getmails.eu", "getonemail.com",
   "getonemail.net", "ghosttexter.de", "giaiphapmuasam.com", "giantmail.de", "ginzi.be",
   "ginzi.co.uk", "ginzi.es", "ginzi.net", "ginzy.co.uk", "ginzy.eu", "girlsindetention.com",
   "girlsundertheinfluence.com", "gishpuppy.com", "glitch.sx", "globaltouron.com",
   "glucosegrin.com", "gmal.com", "gmial.com", "gmx.us", "gnctr-calgary.com", "goemailgo.com",
   "gomail.in", "gorillaswithdirtyarmpits.com", "gothere.biz", "gotmail.com", "gotmail.net",
   "gotmail.org", "gowikibooks.com", "gowikicampus.com", "gowikicars.com", "gowikifilms.com",
   "gowikigames.com", "gowikimusic.com", "gowikinetwork.com", "gowikitravel.com", "gowikitv.com",
   "grandmamail.com", "grandmasmail.com", "great-host.in", "greensloth.com", "greggamel.com",
   "greggamel.net", "gregorsky.zone", "gregorygamel.com", "gregorygamel.net", "grish.de", "grr.la",
   "gs-arc.org", "gsredcross.org", "gsrv.co.uk", "gudanglowongan.com", "guerillamail.biz",
   "guerillamail.com", "guerillamail.de", "guerillamail.info", "guerillamail.net",
   "guerillamail.org", "guerillamailblock.com", "guerrillamail.biz", "guerrillamail.com",
   "guerrillamail.de", "guerrillamail.info", "guerrillamail.net", "guerrillamail.org",
   "guerrillamailblock.com", "gustr.com", "gynzi.co.uk", "gynzi.es", "gynzy.at", "gynzy.es",
   "gynzy.eu", "gynzy.gr", "gynzy.info", "gynzy.lt", "gynzy.mobi", "gynzy.pl", "gynzy.ro",
   "gynzy.sk", "gzb.ro", "h8s.org", "habitue.net", "hacccc.com", "hackthatbit.ch", "hahawrong.com",
   "haltospam.com", "harakirimail.com", "haribu.com", "hartbot.de", "hat-geld.de", "hatespam.org",
   "hawrong.com", "hazelnut4u.com", "hazelnuts4u.com", "hazmatshipping.org", "headstrong.de",
   "heathenhammer.com", "heathenhero.com", "hecat.es", "hellodream.mobi", "helloricky.com",
   "helpinghandtaxcenter.org", "herp.in", "herpderp.nl", "hi5.si", "hiddentragedy.com",
   "hidemail.de", "hidzz.com", "highbros.org", "hmail.us", "hmamail.com", "hmh.ro",
   "hoanggiaanh.com", "hochsitze.com", "hopemail.biz", "hot-mail.cf", "hot-mail.ga", "hot-mail.gq",
   "hot-mail.ml", "hot-mail.tk", "hotmai.com", "hotmial.com", "hotpop.com", "hpc.tw", "hs.vc",
   "ht.cx", "hulapla.de", "humaility.com", "humn.ws.gy", "hungpackage.com", "huskion.net",
   "hvastudiesucces.nl", "hwsye.net", "ibnuh.bz", "icantbelieveineedtoexplainthisshit.com",
   "icx.in", "icx.ro", "id.au", "ieatspam.eu", "ieatspam.info", "ieh-mail.de", "ige.es",
   "ignoremail.com", "ihateyoualot.info", "iheartspam.org", "ikbenspamvrij.nl", "illistnoise.com",
   "ilovespam.com", "imails.info", "imgof.com", "imgv.de", "imstations.com", "inbax.tk",
   "inbound.plus", "inbox.si", "inbox2.info", "inboxalias.com", "inboxclean.com", "inboxclean.org",
   "inboxdesign.me", "inboxed.im", "inboxed.pw", "inboxproxy.com", "inboxstore.me",
   "inclusiveprogress.com", "incognitomail.com", "incognitomail.net", "incognitomail.org",
   "incq.com", "ind.st", "indieclad.com", "indirect.ws", "ineec.net", "infocom.zp.ua", "inggo.org",
   "inoutmail.de", "inoutmail.eu", "inoutmail.info", "inoutmail.net", "insanumingeniumhomebrew.com",
   "insorg-mail.info", "instant-mail.de", "instantemailaddress.com", "internetoftags.com",
   "interstats.org", "intersteller.com", "iozak.com", "ip6.li", "ipoo.org", "ipsur.org", "irc.so",
   "irish2me.com", "iroid.com", "ironiebehindert.de", "irssi.tv", "is.af",
   "isukrainestillacountry.com", "it7.ovh", "itunesgiftcodegenerator.com", "iwi.net", "ixx.io",
   "j-p.us", "j.svxr.org", "jafps.com", "jdmadventures.com", "jdz.ro", "jellyrolls.com",
   "jetable.com", "jetable.fr.nf", "jetable.net", "jetable.org", "jetable.pp.ua", "jmail.ro",
   "jnxjn.com", "jobbikszimpatizans.hu", "jobposts.net", "jobs-to-be-done.net", "joelpet.com",
   "joetestalot.com", "jopho.com", "jourrapide.com", "jpco.org", "jsrsolutions.com",
   "jungkamushukum.com", "junk.to", "junk1e.com", "junkmail.ga", "junkmail.gq", "jwork.ru",
   "kakadua.net", "kalapi.org", "kamsg.com", "kaovo.com", "kariplan.com", "kartvelo.com",
   "kasmail.com", "kaspop.com", "kcrw.de", "keepmymail.com", "keinhirn.de", "keipino.de",
   "kemptvillebaseball.com", "kennedy808.com", "kiani.com", "killmail.com", "killmail.net",
   "kimsdisk.com", "kingsq.ga", "kiois.com", "kismail.ru", "kisstwink.com", "kitnastar.com",
   "klassmaster.com", "klassmaster.net", "kloap.com", "kludgemush.com", "klzlk.com", "kmhow.com",
   "kommunity.biz", "kon42.com", "kook.ml", "kopagas.com", "kopaka.net", "kosmetik-obatkuat.com",
   "kostenlosemailadresse.de", "koszmail.pl", "krypton.tk", "kuhrap.com", "kulturbetrieb.info",
   "kurzepost.de", "kwift.net", "kwilco.net", "kyal.pl", "l-c-a.us", "l33r.eu",
   "labetteraverouge.at", "lackmail.net", "lackmail.ru", "lags.us", "lain.ch",
   "lakelivingstonrealestate.com", "landmail.co", "laoeq.com", "lastmail.co", "lastmail.com",
   "lawlita.com", "lazyinbox.com", "ldop.com", "ldtp.com", "lee.mx", "leeching.net", "lellno.gq",
   "letmeinonthis.com", "letthemeatspam.com", "lez.se", "lhsdv.com", "liamcyrus.com",
   "lifebyfood.com", "lifetotech.com", "ligsb.com", "lilo.me", "lindenbaumjapan.com",
   "link2mail.net", "linkedintuts2016.pw", "linuxmail.so", "litedrop.com", "lkgn.se", "llogin.ru",
   "loadby.us", "locomodev.net", "login-email.cf", "login-email.ga", "login-email.ml",
   "login-email.tk", "logular.com", "loin.in", "lolfreak.net", "lolmail.biz", "lookugly.com",
   "lopl.co.cc", "lortemail.dk", "losemymail.com", "lovemeleaveme.com", "lpfmgmtltd.com", "lr7.us",
   "lr78.com", "lroid.com", "lru.me", "luckymail.org", "lukecarriere.com", "lukemail.info",
   "lukop.dk", "luv2.us", "lyfestylecreditsolutions.com", "m21.cc", "m4ilweb.info", "maboard.com",
   "macromaid.com", "magamail.com", "magicbox.ro", "maidlow.info", "mail-filter.com",
   "mail-owl.com", "mail-temporaire.com", "mail-temporaire.fr", "mail.by", "mail114.net",
   "mail1a.de", "mail21.cc", "mail2rss.org", "mail333.com", "mail4trash.com", "mail666.ru",
   "mail707.com", "mail72.com", "mailback.com", "mailbidon.com", "mailbiz.biz", "mailblocks.com",
   "mailbucket.org", "mailcat.biz", "mailcatch.com", "mailchop.com", "mailcker.com", "mailde.de",
   "mailde.info", "maildrop.cc", "maildrop.cf", "maildrop.ga", "maildrop.gq", "maildrop.ml",
   "maildu.de", "maildx.com", "maileater.com", "mailed.in", "mailed.ro", "maileimer.de",
   "mailexpire.com", "mailfa.tk", "mailforspam.com", "mailfree.ga", "mailfree.gq", "mailfree.ml",
   "mailfreeonline.com", "mailfs.com", "mailguard.me", "mailhazard.com", "mailhazard.us",
   "mailhz.me", "mailimate.com", "mailin8r.com", "mailinatar.com", "mailinater.com",
   "mailinator.co.uk", "mailinator.com", "mailinator.gq", "mailinator.info", "mailinator.net",
   "mailinator.org", "mailinator.us", "mailinator2.com", "mailincubator.com", "mailismagic.com",
   "mailita.tk", "mailjunk.cf", "mailjunk.ga", "mailjunk.gq", "mailjunk.ml", "mailjunk.tk",
   "mailmate.com", "mailme.gq", "mailme.ir", "mailme.lv", "mailme24.com", "mailmetrash.com",
   "mailmoat.com", "mailms.com", "mailnator.com", "mailnesia.com", "mailnull.com", "mailonaut.com",
   "mailorc.com", "mailorg.org", "mailpick.biz", "mailproxsy.com", "mailquack.com", "mailrock.biz",
   "mailsac.com", "mailscrap.com", "mailseal.de", "mailshell.com", "mailsiphon.com",
   "mailslapping.com", "mailslite.com", "mailtemp.info", "mailtemporaire.com", "mailtemporaire.fr",
   "mailtome.de", "mailtothis.com", "mailtrash.net", "mailtv.net", "mailtv.tv", "mailzi.ru",
   "mailzilla.com", "mailzilla.org", "mailzilla.orgmbx.cc", "makemetheking.com", "malahov.de",
   "malayalamdtp.com", "manifestgenerator.com", "mansiondev.com", "manybrain.com", "markmurfin.com",
   "mbx.cc", "mcache.net", "mciek.com", "meepsheep.eu", "meinspamschutz.de", "meltmail.com",
   "messagebeamer.de", "messwiththebestdielikethe.rest", "mezimages.net", "mfsa.ru",
   "miaferrari.com", "midcoastcustoms.com", "midcoastcustoms.net", "midcoastsolutions.com",
   "midcoastsolutions.net", "midlertidig.com", "midlertidig.net", "midlertidig.org",
   "mierdamail.com", "migmail.net", "migmail.pl", "migumail.com", "mijnhva.nl",
   "ministry-of-silly-walks.de", "minsmail.com", "mintemail.com", "misterpinball.de", "mji.ro",
   "mjukglass.nu", "mkpfilm.com", "ml8.ca", "mm.my", "mm5.se", "moakt.com", "moakt.ws",
   "mobileninja.co.uk", "moburl.com", "mockmyid.com", "moeri.org", "mohmal.com", "momentics.ru",
   "moneypipe.net", "monumentmail.com", "moonwake.com", "moot.es", "moreawesomethanyou.com",
   "moreorcs.com", "motique.de", "mountainregionallibrary.net", "moza.pl", "msgos.com", "msk.ru",
   "mspeciosa.com", "mswork.ru", "msxd.com", "mt2009.com", "mt2014.com", "mt2015.com", "mtmdev.com",
   "muathegame.com", "muchomail.com", "mucincanon.com", "mutant.me", "mvrht.com", "mwarner.org",
   "mxfuel.com", "my10minutemail.com", "mybitti.de", "mycleaninbox.net", "mycorneroftheinter.net",
   "mydemo.equipment", "myecho.es", "myemailboxy.com", "mykickassideas.com", "mymail-in.net",
   "mymailoasis.com", "mynetstore.de", "myopang.com", "mypacks.net", "mypartyclip.de",
   "myphantomemail.com", "mysamp.de", "myspaceinc.com", "myspaceinc.net", "myspaceinc.org",
   "myspacepimpedup.com", "myspamless.com", "mytemp.email", "mytempemail.com", "mytempmail.com",
   "mytrashmail.com", "mywarnernet.net", "myzx.com", "n1nja.org", "nabuma.com", "nakedtruth.biz",
   "nanonym.ch", "nationalgardeningclub.com", "naver.com", "negated.com", "neomailbox.com",
   "nepwk.com", "nervmich.net", "nervtmich.net", "net.ua", "netmails.com", "netmails.net",
   "netricity.nl", "netris.net", "netviewer-france.com", "netzidiot.de", "nevermail.de",
   "nextstopvalhalla.com", "nfast.net", "nguyenusedcars.com", "nh3.ro", "nice-4u.com",
   "nicknassar.com", "nincsmail.hu", "niwl.net", "nm7.cc", "nmail.cf", "nnh.com", "nnot.net",
   "no-spam.ws", "no-ux.com", "noblepioneer.com", "nobugmail.com", "nobulk.com", "nobuma.com",
   "noclickemail.com", "nodezine.com", "nogmailspam.info", "nokiamail.com", "nom.za", "nomail.pw",
   "nomail2me.com", "nomorespamemails.com", "nonspam.eu", "nonspammer.de", "nonze.ro", "noref.in",
   "norseforce.com", "nospam.ze.tc", "nospam4.us", "nospamfor.us", "nospamthanks.info",
   "nothingtoseehere.ca", "notmailinator.com", "notrnailinator.com", "notsharingmy.info", "now.im",
   "nowhere.org", "nowmymail.com", "ntlhelp.net", "nubescontrol.com", "nullbox.info",
   "nurfuerspam.de", "nuts2trade.com", "nwldx.com", "ny7.me", "o2stk.org", "o7i.net", "obfusko.com",
   "objectmail.com", "obobbo.com", "obxpestcontrol.com", "odaymail.com", "odnorazovoe.ru",
   "oerpub.org", "offshore-proxies.net", "ohaaa.de", "ohi.tw", "okclprojects.com", "okrent.us",
   "okzk.com", "olypmall.ru", "omail.pro", "omnievents.org", "one-time.email", "oneoffemail.com",
   "oneoffmail.com", "onet.pl", "onewaymail.com", "onlatedotcom.info", "online.ms",
   "onlineidea.info", "onqin.com", "ontyne.biz", "oolus.com", "oopi.org", "opayq.com", "opp24.com",
   "ordinaryamerican.net", "org.ua", "oroki.de", "oshietechan.link", "otherinbox.com",
   "ourklips.com", "ourpreviewdomain.com", "outlawspam.com", "ovpn.to", "owlpic.com", "ownsyou.de",
   "oxopoha.com", "ozyl.de", "pa9e.com", "pagamenti.tk", "pancakemail.com", "paplease.com",
   "pastebitch.com", "pcusers.otherinbox.com", "penisgoes.in", "pepbot.com", "peterdethier.com",
   "petrzilka.net", "pfui.ru", "photomark.net", "phpbb.uu.gl", "pi.vu", "pii.at", "piki.si",
   "pimpedupmyspace.com", "pinehill-seattle.org", "pingir.com", "pisls.com", "pjjkp.com",
   "plexolan.de", "plhk.ru", "plw.me", "pojok.ml", "pokiemobile.com", "politikerclub.de",
   "pooae.com", "poofy.org", "pookmail.com", "poopiebutt.club", "popesodomy.com", "popgx.com",
   "postacin.com", "postonline.me", "poutineyourface.com", "powered.name", "powlearn.com", "pp.ua",
   "primabananen.net", "privacy.net", "privatdemail.net", "privy-mail.com", "privy-mail.de",
   "privymail.de", "pro-tag.org", "procrackers.com", "projectcl.com", "propscore.com",
   "proxymail.eu", "proxyparking.com", "prtnx.com", "prtz.eu", "psh.me", "punkass.com",
   "purcell.email", "purelogistics.org", "put2.net", "putthisinyourspamdatabase.com", "pwrby.com",
   "qasti.com", "qc.to", "qibl.at", "qipmail.net", "qisdo.com", "qisoa.com", "qoika.com", "qq.my",
   "qsl.ro", "quadrafit.com", "quickinbox.com", "quickmail.nl", "qvy.me", "qwickmail.com",
   "r4nd0m.de", "ra3.us", "rabin.ca", "raetp9.com", "raketenmann.de", "rancidhome.net",
   "randomail.net", "raqid.com", "rax.la", "raxtest.com", "rbb.org", "rcpt.at", "reallymymail.com",
   "realtyalerts.ca", "receiveee.com", "recipeforfailure.com", "recode.me", "reconmail.com",
   "recyclemail.dk", "redfeathercrow.com", "regbypass.com", "rejectmail.com", "reliable-mail.com",
   "remail.cf", "remail.ga", "remarkable.rocks", "remote.li", "reptilegenetics.com",
   "revolvingdoorhoax.org", "rhyta.com", "riddermark.de", "risingsuntouch.com", "rklips.com",
   "rma.ec", "rmqkr.net", "rnailinator.com", "ro.lt", "robertspcrepair.com", "ronnierage.net",
   "rotaniliam.com", "rowe-solutions.com", "royal.net", "royaldoodles.org", "rppkn.com",
   "rtrtr.com", "ruffrey.com", "rumgel.com", "runi.ca", "rustydoor.com", "rvb.ro", "s0ny.net",
   "s33db0x.com", "sabrestlouis.com", "sackboii.com", "safersignup.de", "safetymail.info",
   "safetypost.de", "saharanightstempe.com", "samsclass.info", "sandelf.de", "sandwhichvideo.com",
   "sanfinder.com", "sanim.net", "sanstr.com", "sast.ro", "satukosong.com", "sausen.com",
   "saynotospams.com", "scatmail.com", "scay.net", "schachrol.com", "schafmail.de",
   "schmeissweg.tk", "schrott-email.de", "sd3.in", "secmail.pw", "secretemail.de",
   "secure-mail.biz", "secure-mail.cc", "secured-link.net", "securehost.com.es", "seekapps.com",
   "sejaa.lv", "selfdestructingmail.com", "selfdestructingmail.org", "sendfree.org",
   "sendingspecialflyers.com", "sendspamhere.com", "senseless-entertainment.com", "server.ms",
   "services391.com", "sexforswingers.com", "sexical.com", "sharedmailbox.org", "sharklasers.com",
   "shhmail.com", "shhuut.org", "shieldedmail.com", "shieldemail.com", "shiftmail.com",
   "shipfromto.com", "shiphazmat.org", "shipping-regulations.com", "shippingterms.org",
   "shitmail.de", "shitmail.me", "shitmail.org", "shitware.nl", "shmeriously.com", "shortmail.net",
   "shotmail.ru", "showslow.de", "shrib.com", "shut.name", "shut.ws", "sibmail.com", "sify.com",
   "simpleitsecurity.info", "sin.cl", "sinfiltro.cl", "singlespride.com", "sinnlos-mail.de",
   "sino.tw", "siteposter.net", "sizzlemctwizzle.com", "skeefmail.com", "sky-inbox.com",
   "sky-ts.de", "slapsfromlastnight.com", "slaskpost.se", "slave-auctions.net", "slopsbox.com",
   "slothmail.net", "slushmail.com", "sly.io", "smapfree24.com", "smapfree24.de", "smapfree24.eu",
   "smapfree24.info", "smapfree24.org", "smashmail.de", "smellfear.com", "smellrear.com",
   "smtp99.com", "smwg.info", "snakemail.com", "sneakemail.com", "sneakmail.de", "snkmail.com",
   "socialfurry.org", "sofimail.com", "sofort-mail.de", "sofortmail.de", "softpls.asia",
   "sogetthis.com", "sohu.com", "soisz.com", "solvemail.info", "solventtrap.wiki", "soodmail.com",
   "soodomail.com", "soodonims.com", "soon.it", "spam-be-gone.com", "spam.la", "spam.org.es",
   "spam.su", "spam4.me", "spamail.de", "spamarrest.com", "spamavert.com", "spambob.com",
   "spambob.net", "spambob.org", "spambog.com", "spambog.de", "spambog.net", "spambog.ru",
   "spambooger.com", "spambox.info", "spambox.irishspringrealty.com", "spambox.org", "spambox.us",
   "spamcero.com", "spamcon.org", "spamcorptastic.com", "spamcowboy.com", "spamcowboy.net",
   "spamcowboy.org", "spamday.com", "spamdecoy.net", "spamex.com", "spamfighter.cf",
   "spamfighter.ga", "spamfighter.gq", "spamfighter.ml", "spamfighter.tk", "spamfree.eu",
   "spamfree24.com", "spamfree24.de", "spamfree24.eu", "spamfree24.info", "spamfree24.net",
   "spamfree24.org", "spamgoes.in", "spamherelots.com", "spamhereplease.com", "spamhole.com",
   "spamify.com", "spaminator.de", "spamkill.info", "spaml.com", "spaml.de", "spamlot.net",
   "spammotel.com", "spamobox.com", "spamoff.de", "spamsalad.in", "spamslicer.com", "spamspot.com",
   "spamstack.net", "spamthis.co.uk", "spamthisplease.com", "spamtrail.com", "spamtroll.net",
   "spb.ru", "speed.1s.fr", "speedgaus.net", "spikio.com", "spoofmail.de", "spr.io",
   "spritzzone.de", "spybox.de", "squizzy.de", "sry.li", "ssoia.com", "stanfordujjain.com",
   "starlight-breaker.net", "startfu.com", "startkeys.com", "statdvr.com", "stathost.net",
   "statiix.com", "steambot.net", "stexsy.com", "stinkefinger.net", "stop-my-spam.cf",
   "stop-my-spam.com", "stop-my-spam.ga", "stop-my-spam.ml", "stop-my-spam.tk",
   "streetwisemail.com", "stuckmail.com", "stuffmail.de", "stumpfwerk.com", "suburbanthug.com",
   "suckmyd.com", "sudolife.me", "sudolife.net", "sudomail.biz", "sudomail.com", "sudomail.net",
   "sudoverse.com", "sudoverse.net", "sudoweb.net", "sudoworld.com", "sudoworld.net", "suioe.com",
   "super-auswahl.de", "supergreatmail.com", "supermailer.jp", "superplatyna.com", "superrito.com",
   "superstachel.de", "suremail.info", "svk.jp", "svxr.org", "sweetxxx.de", "swift10minutemail.com",
   "sylvannet.com", "tafmail.com", "tafoi.gr", "tagmymedia.com", "tagyourself.com",
   "talkinator.com", "tanukis.org", "tapchicuoihoi.com", "tb-on-line.net", "techemail.com",
   "techgroup.me", "teewars.org", "tefl.ro", "telecomix.pl", "teleworm.com", "teleworm.us",
   "temp-mail.com", "temp-mail.de", "temp-mail.org", "temp-mail.ru", "tempail.com", "tempalias.com",
   "tempe-mail.com", "tempemail.biz", "tempemail.co.za", "tempemail.com", "tempemail.net",
   "tempinbox.co.uk", "tempinbox.com", "tempmail.co", "tempmail.de", "tempmail.eu", "tempmail.it",
   "tempmail.us", "tempmail2.com", "tempmaildemo.com", "tempmailer.com", "tempmailer.de",
   "tempomail.fr", "temporarily.de", "temporarioemail.com.br", "temporaryemail.net",
   "temporaryemail.us", "temporaryforwarding.com", "temporaryinbox.com", "temporarymailaddress.com",
   "tempsky.com", "tempthe.net", "tempymail.com", "testudine.com", "thanksnospam.info",
   "thankyou2010.com", "thc.st", "theaviors.com", "thebearshark.com", "thecloudindex.com",
   "thediamants.org", "thelimestones.com", "thembones.com.au", "themostemail.com",
   "thereddoors.online", "thescrappermovie.com", "theteastory.info", "thex.ro",
   "thietbivanphong.asia", "thisisnotmyrealemail.com", "thismail.net", "thisurl.website",
   "thnikka.com", "thraml.com", "thrma.com", "throam.com", "thrott.com", "throwam.com",
   "throwawayemailaddress.com", "throwawaymail.com", "thunkinator.org", "thxmate.com", "tic.ec",
   "tilien.com", "timgiarevn.com", "timkassouf.com", "tinyurl24.com", "tittbit.in", "tiv.cc",
   "tizi.com", "tkitc.de", "tlpn.org", "tmail.com", "tmail.ws", "tmailinator.com", "tmpjr.me",
   "toddsbighug.com", "toiea.com", "tokem.co", "tokenmail.de", "tonymanso.com", "toomail.biz",
   "top101.de", "top1mail.ru", "top1post.ru", "topofertasdehoy.com", "topranklist.de",
   "toprumours.com", "tormail.org", "toss.pw", "tosunkaya.com", "totalvista.com", "totesmail.com",
   "tp-qa-mail.com", "tqoai.com", "tradermail.info", "tranceversal.com", "trash-amil.com",
   "trash-mail.at", "trash-mail.cf", "trash-mail.com", "trash-mail.de", "trash-mail.ga",
   "trash-mail.gq", "trash-mail.ml", "trash-mail.tk", "trash2009.com", "trash2010.com",
   "trash2011.com", "trashcanmail.com", "trashdevil.com", "trashdevil.de", "trashemail.de",
   "trashinbox.com", "trashmail.at", "trashmail.com", "trashmail.de", "trashmail.me",
   "trashmail.net", "trashmail.org", "trashmail.ws", "trashmailer.com", "trashymail.com",
   "trashymail.net", "trasz.com", "trayna.com", "trbvm.com", "trbvn.com", "trbvo.com",
   "trialmail.de", "trickmail.net", "trillianpro.com", "trollproject.com", "tropicalbass.info",
   "trungtamtoeic.com", "tryalert.com", "ttszuo.xyz", "tualias.com", "turoid.com", "turual.com",
   "twinmail.de", "twoweirdtricks.com", "txtadvertise.com", "tyhe.ro", "tyldd.com", "ubismail.net",
   "ubm.md", "ufacturing.com", "uggsrock.com", "uguuchantele.com", "uhhu.ru", "uk.to", "umail.net",
   "undo.it", "unimark.org", "unit7lahaina.com", "unmail.ru", "upliftnow.com", "uplipht.com",
   "uploadnolimit.com", "urfunktion.se", "uroid.com", "us.af", "us.to", "utiket.us", "uu.gl",
   "uwork4.us", "uyhip.com", "vaati.org", "valemail.net", "valhalladev.com", "vankin.de", "vda.ro",
   "vdig.com", "venompen.com", "verdejo.com", "veryday.ch", "veryday.eu", "veryday.info",
   "veryrealemail.com", "vesa.pw", "vfemail.net", "victime.ninja", "victoriantwins.com",
   "vidchart.com", "viditag.com", "viewcastmedia.com", "viewcastmedia.net", "viewcastmedia.org",
   "vikingsonly.com", "vinernet.com", "vipmail.name", "vipmail.pw", "vipxm.net", "viralplays.com",
   "vixletdev.com", "vkcode.ru", "vmailing.info", "vmani.com", "vmpanda.com", "voidbay.com",
   "vomoto.com", "vorga.org", "votiputox.org", "voxelcore.com", "vpn.st", "vrmtr.com",
   "vsimcard.com", "vubby.com", "vztc.com", "w3internet.co.uk", "wakingupesther.com", "walala.org",
   "walkmail.net", "walkmail.ru", "wallm.com", "wasteland.rfc822.org", "watch-harry-potter.com",
   "watchever.biz", "watchfull.net", "watchironman3onlinefreefullmovie.com", "wbml.net",
   "web-mail.pp.ua", "web.id", "webemail.me", "webm4il.info", "webtrip.ch", "webuser.in", "wee.my",
   "wef.gr", "wefjo.grn.cc", "weg-werf-email.de", "wegwerf-email-addressen.de",
   "wegwerf-email-adressen.de", "wegwerf-email.de", "wegwerf-email.net", "wegwerf-emails.de",
   "wegwerfadresse.de", "wegwerfemail.com", "wegwerfemail.de", "wegwerfemail.net",
   "wegwerfemail.org", "wegwerfemailadresse.com", "wegwerfmail.de", "wegwerfmail.info",
   "wegwerfmail.net", "wegwerfmail.org", "wegwerpmailadres.nl", "wegwrfmail.de", "wegwrfmail.net",
   "wegwrfmail.org", "welikecookies.com", "wetrainbayarea.com", "wetrainbayarea.org", "wg0.com",
   "wh4f.org", "whatiaas.com", "whatifanalytics.com", "whatpaas.com", "whatsaas.com",
   "whiffles.org", "whopy.com", "whyspam.me", "wibblesmith.com", "wickmail.net", "widget.gg",
   "wilemail.com", "willhackforfood.biz", "willselfdestruct.com", "wimsg.com", "winemaven.info",
   "wins.com.br", "wmail.cf", "wolfsmail.tk", "wollan.info", "worldspace.link", "wpg.im",
   "wralawfirm.com", "writeme.us", "wronghead.com", "wuzup.net", "wuzupmail.net", "wwwnew.eu",
   "wxnw.net", "x24.com", "xagloo.co", "xagloo.com", "xcompress.com", "xcpy.com", "xemaps.com",
   "xents.com", "xing886.uu.gl", "xjoi.com", "xl.cx", "xmail.com", "xmaily.com", "xn--9kq967o.com",
   "xoxox.cc", "xrho.com", "xwaretech.com", "xwaretech.info", "xwaretech.net", "xww.ro",
   "xyzfree.net", "xzsok.com", "yanet.me", "yapped.net", "yaqp.com", "ycare.de", "ycn.ro", "ye.vc",
   "yedi.org", "yep.it", "yhg.biz", "ynmrealty.com", "yodx.ro", "yogamaven.com", "yomail.info",
   "yoo.ro", "yopmail.com", "yopmail.fr", "yopmail.gq", "yopmail.net", "you-spam.com",
   "yougotgoated.com", "youmail.ga", "youmailr.com", "youneedmore.info", "yourdomain.com",
   "yourewronghereswhy.com", "yourlms.biz", "yspend.com", "yugasandrika.com", "yui.it",
   "yuurok.com", "yxzx.net", "z0d.eu", "z1p.biz", "z86.ru", "za.com", "zasod.com", "zebins.com",
   "zebins.eu", "zehnminuten.de", "zehnminutenmail.de", "zepp.dk", "zetmail.com", "zfymail.com",
   "zik.dj", "zippymail.info", "zipsendtest.com", "zoaxe.com", "zoemail.com", "zoemail.net",
   "zoemail.org", "zoetropes.org", "zombie-hive.com", "zomg.info", "zp.ua", "zumpul.com",
   "zxcv.com", "zxcvbnm.com", "zzz.com"]

/-- `is_disposable(email)` (source lines 88-94): membership of the *list*
`email.rsplit('@', 1)` in the string list `_disposable`. -/
def is_disposable (email : String) : Bool :=
  let email_domain : PyVal := .list (pyRsplitAt1 email)
  _disposable.any (fun d => pyEq email_domain (.str d))

end ValidateEmail

namespace ValidateEmail

/-! ## Data model: connection options, oracles, caches, events -/

/-- The per-exchanger option dictionary built by `get_known_domain` and
`get_mx_ip` (source lines 116 and 147):
`{"domain": ..., "username": ..., "password": ..., "is_ssl": ..., "port": ...}`. -/
structure MXOptions where
  domain : String
  username : Option String
  password : Option String
  is_ssl : Int
  port : Nat
deriving DecidableEq, Repr

/-- One row of the SQLite `connectionView`
(domain, server, username, password, is_ssl, port), as fetched by
`get_known_domain` (source line 102). -/
structure DirRow where
  domain : String
  server : String
  username : Option String
  password : Option String
  is_ssl : Int
  port : Nat
deriving DecidableEq, Repr

/-- Outcome of one `resolver.query(hostname, 'MX')` call: an answer (the
exchanger names in response order), `dns.exception.Timeout`,
`resolver.NXDOMAIN`, or any other `dns.exception.DNSException`. -/
inductive DnsOutcome where
  | answer : List String → DnsOutcome
  | timeout : DnsOutcome
  | nxdomain : DnsOutcome
  | otherFailure : DnsOutcome
deriving DecidableEq, Repr

/-- Outcome of `smtp.connect(host=mx, port=...)` (source line 228):
success, `smtplib.SMTPConnectError`, an `smtplib.SMTPServerDisconnected`,
or a `socket.error` (which only the outer handler of `validate_email`
catches). -/
inductive ConnectOutcome where
  | ok : ConnectOutcome
  | smtpConnectError : ConnectOutcome
  | disconnected : ConnectOutcome
  | socketError : ConnectOutcome
deriving DecidableEq, Repr

/-- Outcome of `smtp.login(...)` (source line 232): success,
`SMTPServerDisconnected`, or an authentication failure
(`smtplib.SMTPAuthenticationError`, which no handler catches). -/
inductive LoginOutcome where
  | ok : LoginOutcome
  | disconnected : LoginOutcome
  | authFailure : LoginOutcome
deriving DecidableEq, Repr

/-- Outcome of one SMTP command (`helo` / `mail` / `rcpt`): a reply status
code, or an `SMTPServerDisconnected` raised while talking to the server. -/
inductive CmdOutcome where
  | reply : Nat → CmdOutcome
  | disconnected : CmdOutcome
deriving DecidableEq, Repr

/-- What one exchanger's server does when contacted: the connect outcome,
the login outcome (consulted only when credentials are configured), and the
replies to the three protocol commands (consulted only as far as the session
gets). -/
structure ExchangerWorld where
  connect : ConnectOutcome
  login : LoginOutcome
  helo : CmdOutcome
  mail : CmdOutcome
  rcpt : CmdOutcome
deriving DecidableEq, Repr

/-- The external collaborators of the module: the SQLite view (`none` models
`sql_conn=None` as well as a missing row), the optional `decrypt` capability,
the DNS resolver, and the SMTP servers, one behaviour per exchanger host. -/
structure Env where
  view : String → Option DirRow
  decrypt : Option (String → String)
  dns : String → DnsOutcome
  smtp : String → ExchangerWorld

/-- Python exceptions that escape the embedded functions. -/
inductive PyErr where
  | nameError : PyErr
  | dnsError : PyErr
  | authError : PyErr
deriving DecidableEq, Repr

/-- Network contacts made during a call: one `dnsQuery` per
`resolver.query`, one `smtpConnect` per `smtp.connect` attempt. -/
inductive NetEvent where
  | dnsQuery : String → NetEvent
  | smtpConnect : String → NetEvent
deriving DecidableEq, Repr

instance {e a : Type} [DecidableEq e] [DecidableEq a] :
    DecidableEq (Except e a) := fun x y =>
  match x, y with
  | .ok u, .ok v =>
      if h : u = v then .isTrue (by rw [h]) else .isFalse (by simp [h])
  | .error u, .error v =>
      if h : u = v then .isTrue (by rw [h]) else .isFalse (by simp [h])
  | .ok _, .error _ => .isFalse (by simp)
  | .error _, .ok _ => .isFalse (by simp)

/-- `MX_DNS_CACHE` (source line 75): hostname to either an exchanger
dictionary or Python `None` (stored for NXDOMAIN). -/
abbrev MxDnsCache : Type := List (String × Option (List (String × MXOptions)))

/-- `MX_CHECK_CACHE` (source line 76): exchanger host to the cached boolean. -/
abbrev MxCheckCache : Type := List (String × Bool)

instance : DecidableEq (Option (List (String × MXOptions))) := inferInstance

instance : DecidableEq MxDnsCache := inferInstance

/-- The two module-level caches. -/
structure Caches where
  mxDns : MxDnsCache
  mxCheck : MxCheckCache
deriving DecidableEq, Repr

/-- What `get_mx_ip` hands back to `validate_email`: an exchanger dictionary,
Python `None` (line 153's cached NXDOMAIN marker), or Python `False`
(line 150's timeout marker). -/
inductive MxResult where
  | hosts : List (String × MXOptions) → MxResult
  | noSuchDomain : MxResult
  | indeterminate : MxResult
deriving DecidableEq, Repr

/-! ## `get_known_domain` and `get_mx_ip` -/

/-- `get_known_domain(hostname, sql_conn, decrypt)` (source lines 97-118):
look the domain up in the view; decrypt username/password only when both the
stored value and the `decrypt` capability are present; return the
single-entry dictionary `{server: options}` keyed by the row's server. -/
def get_known_domain (env : Env) (hostname : String) :
    Option (String × MXOptions) :=
  match env.view hostname with
  | none => none
  | some data =>
      let username := match data.username, env.decrypt with
        | some u, some f => some (f u)
        | u, _ => u
      let password := match data.password, env.decrypt with
        | some p, some f => some (f p)
        | p, _ => p
      some (data.server,
        { domain := data.domain, username := username, password := password,
          is_ssl := data.is_ssl, port := data.port })

/-- The loop of source lines 136-147: walk the DNS answer in order; for each
exchanger re-check the Directory on its registrable domain and short-circuit
on a hit; otherwise accumulate a default options entry
`{"domain": hostname, "username": None, "password": None, "is_ssl": 0,
"port": 25}`. -/
def scanExchangers (env : Env) (hostname : String) :
    List String → List (String × MXOptions) →
    Option (String × MXOptions) × List (String × MXOptions)
  | [], acc => (none, acc)
  | server :: rest, acc =>
      match get_known_domain env (topLevelDomainOf server) with
      | some kd => (some kd, acc)
      | none =>
          scanExchangers env hostname rest
            (dictInsert acc server
              { domain := hostname, username := none, password := none,
                is_ssl := 0, port := 25 })

/-- `get_mx_ip(hostname, sql_conn, decrypt)` (source lines 121-158).

On a Directory hit the source's line 125 evaluates
`pprint.pformat(known_doamin, indent=4)` — `known_doamin` is an undefined
name (a misspelling of `known_domain`), so the hit path raises `NameError`
before returning.  Otherwise: answer the cache, or issue one MX query and
classify the outcome (timeout returns `False` uncached, NXDOMAIN caches
`None`, other DNS failures re-raise, an answer is scanned by
`scanExchangers` and cached unless a registrable-domain Directory hit
short-circuits it). -/
def get_mx_ip (env : Env) (hostname : String) (cache : MxDnsCache) :
    Except PyErr MxResult × MxDnsCache × List NetEvent :=
  match get_known_domain env hostname with
  | some _ => (.error .nameError, cache, [])
  | none =>
      match List.lookup hostname cache with
      | some cached =>
          (.ok (match cached with
                | some item => .hosts item
                | none => .noSuchDomain), cache, [])
      | none =>
          match env.dns hostname with
          | .timeout => (.ok .indeterminate, cache, [.dnsQuery hostname])
          | .nxdomain =>
              (.ok .noSuchDomain, dictInsert cache hostname none,
               [.dnsQuery hostname])
          | .otherFailure => (.error .dnsError, cache, [.dnsQuery hostname])
          | .answer servers =>
              match scanExchangers env hostname servers [] with
              | (some kd, _) => (.ok (.hosts [kd]), cache, [.dnsQuery hostname])
              | (none, item) =>
                  (.ok (.hosts item), dictInsert cache hostname (some item),
                   [.dnsQuery hostname])

/-! ## `check_command` and the exchanger loop -/

/-- `check_command(result_tuple, server_name, ok_codes, fail_codes)`
(source lines 161-169): fail codes are tested first, then ok codes;
anything else is Python `None`. -/
def check_command (status : Nat) (ok_codes fail_codes : List Nat) :
    Option Bool :=
  if fail_codes.contains status then some false
  else if ok_codes.contains status then some true
  else none

/-- Python truthiness of an optional string (`None` and `''` are falsy). -/
def pyTruthy : Option String → Bool
  | none => false
  | some s => s != ""

end ValidateEmail

namespace ValidateEmail

/-- What one iteration of the `for mx in mx_hosts` loop
(source lines 214-268) does: return a value from `validate_email`, let an
uncaught exception escape, or fall through to the next exchanger.  Each
carries the reachability cache as left behind and the network events
caused; `next` also carries the (possibly rebound) `sending_email`. -/
inductive StepResult where
  | ret : Option Bool → MxCheckCache → List NetEvent → StepResult
  | err : PyErr → MxCheckCache → List NetEvent → StepResult
  | next : Option String → MxCheckCache → List NetEvent → StepResult
deriving DecidableEq

/-- The `sending_email` rebinding of source lines 244-247: prefer a truthy
Directory username, else keep an already-truthy caller value, else
synthesize `admin@<hostname>`.  The rebinding persists into later loop
iterations, as in the source. -/
def senderAfterHelo (hostname : String) (sending : Option String)
    (opts : MXOptions) : Option String :=
  if pyTruthy opts.username then opts.username
  else if pyTruthy sending then sending
  else some ("admin@" ++ hostname)

/-- The part of a loop iteration after a successful connect (and login, when
one was required), for exchanger `mx` with server behaviour `w`
(source lines 234-259): write `MX_CHECK_CACHE[mx] = True`; without `verify`
return `True`; otherwise run `helo`, rebind `sending_email`, run `mail`,
and classify the `rcpt` reply three ways. -/
def probeSession (verify : Bool) (hostname : String) (sending : Option String)
    (cc : MxCheckCache) (mx : String) (opts : MXOptions)
    (w : ExchangerWorld) (tr : List NetEvent) : StepResult :=
  let cc1 := dictInsert cc mx true
  if verify = false then .ret (some true) cc1 tr
  else
    match w.helo with
    | .disconnected => .next sending cc1 tr
    | .reply h =>
        if check_command h [250] [550] ≠ some true then
          .next sending cc1 tr
        else
          let sending1 := senderAfterHelo hostname sending opts
          match w.mail with
          | .disconnected => .next sending1 cc1 tr
          | .reply m =>
              if check_command m [250] [550] ≠ some true then
                .next sending1 cc1 tr
              else
                match w.rcpt with
                | .disconnected => .next sending1 cc1 tr
                | .reply r =>
                    match check_command r [250] [550] with
                    | some true => .ret (some true) cc1 tr
                    | some false => .ret (some false) cc1 tr
                    | none => .next sending1 cc1 tr

/-- One iteration of the exchanger loop for exchanger `mx` with options
`opts` (source lines 214-268):

* line 217: with `verify` false and a cache hit, return the cached boolean
  (no connection is opened);
* line 228: `smtp.connect` — `SMTPConnectError` and `SMTPServerDisconnected`
  skip to the next exchanger, a `socket.error` escapes to the outer handler
  of `validate_email`, which turns the whole call into `None`;
* lines 230-232: when both username and password are truthy, `smtp.login` —
  a disconnect skips the exchanger, an authentication failure escapes;
* the rest of the iteration is `probeSession`. -/
def probeStep (env : Env) (verify : Bool) (hostname : String)
    (sending : Option String) (cc : MxCheckCache)
    (mx : String) (opts : MXOptions) : StepResult :=
  match verify, List.lookup mx cc with
  | false, some b => .ret (some b) cc []
  | verify, _ =>
      match (env.smtp mx).connect with
      | .smtpConnectError => .next sending cc [.smtpConnect mx]
      | .disconnected => .next sending cc [.smtpConnect mx]
      | .socketError => .ret none cc [.smtpConnect mx]
      | .ok =>
          if pyTruthy opts.username && pyTruthy opts.password then
            match (env.smtp mx).login with
            | .disconnected => .next sending cc [.smtpConnect mx]
            | .authFailure => .err .authError cc [.smtpConnect mx]
            | .ok => probeSession verify hostname sending cc mx opts
                       (env.smtp mx) [.smtpConnect mx]
          else probeSession verify hostname sending cc mx opts
                 (env.smtp mx) [.smtpConnect mx]

/-- The whole `for mx in mx_hosts` loop (source lines 214-270): run
`probeStep` on each exchanger in dictionary order, threading
`sending_email` and the reachability cache; falling off the end is the
`return None` of line 270. -/
def probeLoop (env : Env) (verify : Bool) (hostname : String) :
    Option String → MxCheckCache → List (String × MXOptions) →
    Except PyErr (Option Bool) × MxCheckCache × List NetEvent
  | _, cc, [] => (.ok none, cc, [])
  | sending, cc, (mx, opts) :: rest =>
      match probeStep env verify hostname sending cc mx opts with
      | .ret v cc' tr => (.ok v, cc', tr)
      | .err e cc' tr => (.error e, cc', tr)
      | .next sending' cc' tr =>
          let (r, cc2, tr2) := probeLoop env verify hostname sending' cc' rest
          (r, cc2, tr ++ tr2)

/-- `validate_email(email, check_mx, verify, debug, smtp_timeout,
allow_disposable, sending_email, sql_conn, decrypt)`
(source lines 179-280), with the external collaborators supplied by `env`
and the module caches threaded as state:

* line 201: a failed regex match raises `AssertionError`, caught at
  line 271, returning `False`;
* line 202: `check_mx |= verify`;
* lines 203-204: with `allow_disposable` false and `is_disposable` true,
  return `False`;
* lines 206-213: with `check_mx`, resolve via `get_mx_ip` on the text after
  the first `'@'`; Python `None` means `False`, Python `False` means
  `None`, an uncaught exception keeps escaping;
* lines 214-270: otherwise the exchanger loop decides the result;
* line 280: without `check_mx`, return `True`. -/
def validate_email (env : Env) (email : String)
    (check_mx verify allow_disposable : Bool)
    (sending_email : Option String) (st : Caches) :
    Except PyErr (Option Bool) × Caches × List NetEvent :=
  if matchesValidAddress email = false then (.ok (some false), st, [])
  else
    let check_mx := check_mx || verify
    if allow_disposable = false && is_disposable email then
      (.ok (some false), st, [])
    else if check_mx then
      let hostname := hostnameOf email
      match get_mx_ip env hostname st.mxDns with
      | (.error e, dc, tr) => (.error e, { st with mxDns := dc }, tr)
      | (.ok .noSuchDomain, dc, tr) =>
          (.ok (some false), { st with mxDns := dc }, tr)
      | (.ok .indeterminate, dc, tr) =>
          (.ok none, { st with mxDns := dc }, tr)
      | (.ok (.hosts m), dc, tr) =>
          let (r, cc, tr2) := probeLoop env verify hostname sending_email st.mxCheck m
          (r, { mxDns := dc, mxCheck := cc }, tr ++ tr2)
    else (.ok (some true), st, [])

/-- Every boolean stored in a reachability cache is `true`. -/
def cacheAllTrue (cc : MxCheckCache) : Prop := ∀ p ∈ cc, p.2 = true

/-- The cache left behind by a loop iteration. -/
def StepResult.cache : StepResult → MxCheckCache
  | .ret _ cc _ => cc
  | .err _ cc _ => cc
  | .next _ cc _ => cc

/-- A session (post-connect) outcome that reaches neither `return True` nor
`return False`: a disconnect during `helo`/`mail`/`rcpt`, a non-250 reply to
`helo` or `mail`, or an `rcpt` reply that is neither 250 nor 550. -/
def sessionNonTerminal (w : ExchangerWorld) : Bool :=
  match w.helo with
  | .disconnected => true
  | .reply h =>
      (h != 250) ||
        match w.mail with
        | .disconnected => true
        | .reply m =>
            (m != 250) ||
              match w.rcpt with
              | .disconnected => true
              | .reply r => (r != 250) && (r != 550)

/-- An exchanger visit that reaches no terminal verdict: any connect
failure, a disconnect during login, or a non-terminal session.  (An
authentication failure is excluded: it escapes as an exception.) -/
def stepNonTerminal (opts : MXOptions) (w : ExchangerWorld) : Bool :=
  match w.connect with
  | .ok =>
      if pyTruthy opts.username && pyTruthy opts.password then
        match w.login with
        | .authFailure => false
        | .disconnected => true
        | .ok => sessionNonTerminal w
      else sessionNonTerminal w
  | _ => true

/-! ## Concrete environments used by the closed statements below -/

/-- An exchanger that accepts everything. -/
def allOkWorld : ExchangerWorld :=
  { connect := .ok, login := .ok, helo := .reply 250,
    mail := .reply 250, rcpt := .reply 250 }

/-- No Directory, a DNS that times out, compliant exchangers. -/
def envPlain : Env :=
  { view := fun _ => none, decrypt := none, dns := fun _ => .timeout,
    smtp := fun _ => allOkWorld }

/-- A Directory row for `gmail.com`, as in the spec's Scenario C. -/
def gmailRow : DirRow :=
  { domain := "gmail.com", server := "smtp.gmail.com",
    username := some "enc-user", password := some "enc-pass",
    is_ssl := 1, port := 465 }

/-- An environment whose Directory knows `gmail.com`. -/
def envDirectory : Env :=
  { view := fun h => if h == "gmail.com" then some gmailRow else none,
    decrypt := none,
    dns := fun _ => .answer ["gmail-smtp-in.l.google.com"],
    smtp := fun _ => allOkWorld }

/-- No Directory; DNS answers with an empty MX record set. -/
def envNoMx : Env :=
  { view := fun _ => none, decrypt := none, dns := fun _ => .answer [],
    smtp := fun _ => allOkWorld }

/-- No Directory; DNS outcome depends on the hostname, one hostname per
terminal class. -/
def envDnsCases : Env :=
  { view := fun _ => none, decrypt := none,
    dns := fun h =>
      if h == "nx.test" then .nxdomain
      else if h == "to.test" then .timeout
      else if h == "of.test" then .otherFailure
      else .answer [],
    smtp := fun _ => allOkWorld }

/-- Default (non-Directory) connection options for domain `d.test`. -/
def optsPlain : MXOptions :=
  { domain := "d.test", username := none, password := none,
    is_ssl := 0, port := 25 }

/-- An exchanger that answers 550 to `rcpt`. -/
def rcpt550World : ExchangerWorld :=
  { connect := .ok, login := .ok, helo := .reply 250,
    mail := .reply 250, rcpt := .reply 550 }

/-- No Directory; every exchanger answers 550 to `rcpt`. -/
def envRcpt550 : Env :=
  { view := fun _ => none, decrypt := none, dns := fun _ => .timeout,
    smtp := fun _ => rcpt550World }

/-- Caches holding a resolved exchanger set for `d.test` and a reachability
entry recording `mx1.test` as reachable. -/
def stVerifiedCache : Caches :=
  { mxDns := [("d.test", some [("mx1.test", optsPlain)])],
    mxCheck := [("mx1.test", true)] }

/-- `mx1.test` refuses connections, `mx2.test` rejects `helo` and gives a
non-terminal `rcpt` reply. -/
def envNonTerm : Env :=
  { view := fun _ => none, decrypt := none, dns := fun _ => .timeout,
    smtp := fun mx =>
      if mx == "mx1.test" then
        { connect := .smtpConnectError, login := .ok, helo := .reply 250,
          mail := .reply 250, rcpt := .reply 250 }
      else
        { connect := .ok, login := .ok, helo := .reply 420,
          mail := .reply 250, rcpt := .reply 451 } }


end ValidateEmail

namespace ValidateEmail

/-! ## Helper lemmas -/

/-- The comparison `is_disposable` performs is between a Python list and a
Python string, which are never equal; hence the filter never fires. -/
theorem is_disposable_eq_false (email : String) : is_disposable email = false := by
  have h : ∀ l : List String,
      l.any (fun d => pyEq (.list (pyRsplitAt1 email)) (.str d)) = false := by
    intro l
    induction l with
    | nil => rfl
    | cons a t ih => simp [List.any_cons, pyEq, ih]
  exact h _disposable

theorem cacheAllTrue_nil : cacheAllTrue [] := by
  intro p hp
  cases hp

theorem cacheAllTrue_dictInsert (cc : MxCheckCache) (k : String)
    (h : cacheAllTrue cc) : cacheAllTrue (dictInsert cc k true) := by
  induction cc with
  | nil =>
      intro p hp
      simp [dictInsert] at hp
      simp [hp]
  | cons q rest ih =>
      intro p hp
      by_cases hk : q.1 == k
      · simp [dictInsert, hk] at hp
        rcases hp with hp | hp
        · simp [hp]
        · exact h p (List.mem_cons_of_mem q hp)
      · have hrest : cacheAllTrue rest := fun r hr => h r (List.mem_cons_of_mem q hr)
        simp [dictInsert, hk] at hp
        rcases hp with hp | hp
        · exact h p (by simp [hp])
        · exact ih hrest p hp
  
theorem probeSession_cache_allTrue (verify : Bool) (hostname : String)
    (sending : Option String) (cc : MxCheckCache) (mx : String)
    (opts : MXOptions) (w : ExchangerWorld) (tr : List NetEvent)
    (h : cacheAllTrue cc) :
    cacheAllTrue (probeSession verify hostname sending cc mx opts w tr).cache := by
  have hins := cacheAllTrue_dictInsert cc mx h
  unfold probeSession
  split
  · exact hins
  · split
    · exact hins
    · split
      · exact hins
      · split
        · exact hins
        · split
          · exact hins
          · split
            · exact hins
            · split <;> exact hins

theorem probeStep_cache_allTrue (env : Env) (verify : Bool) (hostname : String)
    (sending : Option String) (cc : MxCheckCache) (mx : String)
    (opts : MXOptions) (h : cacheAllTrue cc) :
    cacheAllTrue (probeStep env verify hostname sending cc mx opts).cache := by
  unfold probeStep
  repeat' split
  all_goals
    first
      | exact h
      | exact probeSession_cache_allTrue _ _ _ _ _ _ _ _ h

theorem probeLoop_cache_allTrue (env : Env) (verify : Bool) (hostname : String) :
    ∀ (m : List (String × MXOptions)) (sending : Option String)
      (cc : MxCheckCache), cacheAllTrue cc →
      cacheAllTrue (probeLoop env verify hostname sending cc m).2.1 := by
  intro m
  induction m with
  | nil => intro sending cc h; exact h
  | cons e rest ih =>
      intro sending cc h
      obtain ⟨mx, opts⟩ := e
      have hstep := probeStep_cache_allTrue env verify hostname sending cc mx opts h
      unfold probeLoop
      cases hs : probeStep env verify hostname sending cc mx opts with
      | ret v cc' tr => rw [hs] at hstep; exact hstep
      | err e cc' tr => rw [hs] at hstep; exact hstep
      | next s' cc' tr =>
          rw [hs] at hstep
          exact ih s' cc' hstep

end ValidateEmail


namespace ValidateEmail

/-- With the default code lists, only a 250 reply makes `check_command`
answer `True`. -/
theorem check_command_of_250 : check_command 250 [250] [550] = some true := by
  decide

theorem check_command_of_550 : check_command 550 [250] [550] = some false := by
  decide

theorem check_command_ne_some_true (c : Nat) (hc : c ≠ 250) :
    check_command c [250] [550] ≠ some true := by
  unfold check_command
  by_cases h5 : c = 550 <;> simp [h5, hc]

theorem check_command_neither (c : Nat) (h1 : c ≠ 250) (h2 : c ≠ 550) :
    check_command c [250] [550] = none := by
  unfold check_command
  simp [h1, h2]

/-- With `verify` set, the cache guard of source line 217 is skipped and the
iteration goes straight to `smtp.connect`. -/
theorem probeStep_verify_eq (env : Env) (hostname : String)
    (sending : Option String) (cc : MxCheckCache) (mx : String)
    (opts : MXOptions) :
    probeStep env true hostname sending cc mx opts =
      match (env.smtp mx).connect with
      | .smtpConnectError => .next sending cc [.smtpConnect mx]
      | .disconnected => .next sending cc [.smtpConnect mx]
      | .socketError => .ret none cc [.smtpConnect mx]
      | .ok =>
          if pyTruthy opts.username && pyTruthy opts.password then
            match (env.smtp mx).login with
            | .disconnected => .next sending cc [.smtpConnect mx]
            | .authFailure => .err .authError cc [.smtpConnect mx]
            | .ok => probeSession true hostname sending cc mx opts
                       (env.smtp mx) [.smtpConnect mx]
          else probeSession true hostname sending cc mx opts
                 (env.smtp mx) [.smtpConnect mx] := by
  unfold probeStep
  cases List.lookup mx cc <;> rfl

theorem if_ne_some_true_pos {A : Type} {o : Option Bool} (ho : o = some true)
    (a b : A) : (if o ≠ some true then a else b) = b := by
  subst ho
  simp

theorem if_ne_some_true_neg {A : Type} {o : Option Bool} (ho : o ≠ some true)
    (a b : A) : (if o ≠ some true then a else b) = a := by
  simp [ho]

theorem probeSession_nonTerminal (hostname : String) (sending : Option String)
    (cc : MxCheckCache) (mx : String) (opts : MXOptions) (w : ExchangerWorld)
    (tr : List NetEvent) (hs : sessionNonTerminal w = true) :
    ∃ s' cc' tr', probeSession true hostname sending cc mx opts w tr =
      .next s' cc' tr' := by
  unfold sessionNonTerminal at hs
  unfold probeSession
  rw [if_neg (by decide : ¬(true = false))]
  cases hh : w.helo with
  | disconnected => exact ⟨_, _, _, rfl⟩
  | reply hcode =>
      rw [hh] at hs
      by_cases h250 : hcode = 250
      · subst h250
        simp only [bne_self_eq_false, Bool.false_or] at hs
        dsimp only
        rw [if_ne_some_true_pos check_command_of_250]
        cases hm : w.mail with
        | disconnected => exact ⟨_, _, _, rfl⟩
        | reply mcode =>
            rw [hm] at hs
            by_cases m250 : mcode = 250
            · subst m250
              simp only [bne_self_eq_false, Bool.false_or] at hs
              dsimp only
              rw [if_ne_some_true_pos check_command_of_250]
              cases hr : w.rcpt with
              | disconnected => exact ⟨_, _, _, rfl⟩
              | reply rcode =>
                  rw [hr] at hs
                  simp only [Bool.and_eq_true, bne_iff_ne, ne_eq] at hs
                  dsimp only
                  rw [check_command_neither rcode hs.1 hs.2]
                  exact ⟨_, _, _, rfl⟩
            · dsimp only
              rw [if_ne_some_true_neg (check_command_ne_some_true mcode m250)]
              exact ⟨_, _, _, rfl⟩
      · dsimp only
        rw [if_ne_some_true_neg (check_command_ne_some_true hcode h250)]
        exact ⟨_, _, _, rfl⟩

/-- With `verify` set, a non-terminal exchanger visit either falls through
to the next exchanger or (for a socket-level connect error) returns the
overall `None`. -/
theorem probeStep_nonTerminal (env : Env) (hostname : String)
    (sending : Option String) (cc : MxCheckCache) (mx : String)
    (opts : MXOptions)
    (h : stepNonTerminal opts (env.smtp mx) = true) :
    (∃ s' cc' tr, probeStep env true hostname sending cc mx opts = .next s' cc' tr) ∨
    (∃ cc' tr, probeStep env true hostname sending cc mx opts = .ret none cc' tr) := by
  unfold stepNonTerminal at h
  rw [probeStep_verify_eq]
  cases hcon : (env.smtp mx).connect with
  | smtpConnectError => exact Or.inl ⟨_, _, _, rfl⟩
  | disconnected => exact Or.inl ⟨_, _, _, rfl⟩
  | socketError => exact Or.inr ⟨_, _, rfl⟩
  | ok =>
      rw [hcon] at h
      cases hcred : pyTruthy opts.username && pyTruthy opts.password with
      | false =>
          rw [hcred] at h
          simp only [Bool.false_eq_true, if_false] at h ⊢
          exact Or.inl (probeSession_nonTerminal _ _ _ _ _ _ _ h)
      | true =>
          rw [hcred] at h
          simp only [if_true] at h ⊢
          cases hlog : (env.smtp mx).login with
          | disconnected => exact Or.inl ⟨_, _, _, rfl⟩
          | authFailure => rw [hlog] at h; cases h
          | ok =>
              rw [hlog] at h
              exact Or.inl (probeSession_nonTerminal _ _ _ _ _ _ _ h)

end ValidateEmail

namespace ValidateEmail

/-- With `verify` set, a run over exchangers that are all non-terminal ends
in the `return None` of source line 270 (or the outer socket-error handler),
whatever caches it leaves behind. -/
theorem probeLoop_nonTerminal (env : Env) (hostname : String) :
    ∀ (m : List (String × MXOptions)) (sending : Option String)
      (cc : MxCheckCache),
      (∀ p ∈ m, stepNonTerminal p.2 (env.smtp p.1) = true) →
      ∃ cc' tr, probeLoop env true hostname sending cc m = (.ok none, cc', tr) := by
  intro m
  induction m with
  | nil => intro sending cc _; exact ⟨cc, [], rfl⟩
  | cons e rest ih =>
      intro sending cc hall
      obtain ⟨mx, opts⟩ := e
      have hstep := probeStep_nonTerminal env hostname sending cc mx opts
        (hall (mx, opts) (by simp))
      unfold probeLoop
      rcases hstep with ⟨s', cc', tr, hs⟩ | ⟨cc', tr, hs⟩
      · rw [hs]
        obtain ⟨cc2, tr2, h2⟩ := ih s' cc' (fun p hp => hall p (by simp [hp]))
        dsimp only
        rw [h2]
        exact ⟨cc2, tr ++ tr2, rfl⟩
      · rw [hs]
        exact ⟨cc', tr, rfl⟩

/-- Reduction of a loop iteration whose session reaches the `rcpt` command:
connect succeeded, no credentials were configured, and `helo` and `mail`
both answered 250. -/
theorem probeStep_session_rcpt (env : Env) (hostname : String)
    (sending : Option String) (cc : MxCheckCache) (mx : String)
    (opts : MXOptions)
    (hcon : (env.smtp mx).connect = .ok)
    (hcred : (pyTruthy opts.username && pyTruthy opts.password) = false)
    (hhelo : (env.smtp mx).helo = .reply 250)
    (hmail : (env.smtp mx).mail = .reply 250) :
    probeStep env true hostname sending cc mx opts =
      match (env.smtp mx).rcpt with
      | .disconnected => .next (senderAfterHelo hostname sending opts)
          (dictInsert cc mx true) [.smtpConnect mx]
      | .reply r =>
          match check_command r [250] [550] with
          | some true => .ret (some true) (dictInsert cc mx true) [.smtpConnect mx]
          | some false => .ret (some false) (dictInsert cc mx true) [.smtpConnect mx]
          | none => .next (senderAfterHelo hostname sending opts)
              (dictInsert cc mx true) [.smtpConnect mx] := by
  rw [probeStep_verify_eq, hcon]
  dsimp only
  rw [hcred]
  simp only [Bool.false_eq_true, if_false]
  unfold probeSession
  rw [if_neg (by decide : ¬(true = false)), hhelo]
  dsimp only
  rw [if_ne_some_true_pos check_command_of_250, hmail]
  dsimp only
  rw [if_ne_some_true_pos check_command_of_250]

end ValidateEmail

namespace ValidateEmail

/-! ## Reduction lemmas for `get_mx_ip` and `validate_email` -/

/-- NXDOMAIN on a fresh hostname with no Directory entry: cache `None`,
return the `NoSuchDomain` marker. -/
theorem get_mx_ip_nxdomain (env : Env) (hostname : String)
    (cache : MxDnsCache) (hdir : get_known_domain env hostname = none)
    (hc : List.lookup hostname cache = none)
    (h : env.dns hostname = .nxdomain) :
    get_mx_ip env hostname cache =
      (.ok .noSuchDomain, dictInsert cache hostname none,
       [.dnsQuery hostname]) := by
  unfold get_mx_ip
  simp only [hdir, hc, h]

/-- A timeout on a fresh hostname with no Directory entry: nothing is
cached, the `Indeterminate` marker is returned. -/
theorem get_mx_ip_timeout (env : Env) (hostname : String)
    (cache : MxDnsCache) (hdir : get_known_domain env hostname = none)
    (hc : List.lookup hostname cache = none)
    (h : env.dns hostname = .timeout) :
    get_mx_ip env hostname cache =
      (.ok .indeterminate, cache, [.dnsQuery hostname]) := by
  unfold get_mx_ip
  simp only [hdir, hc, h]

/-- Any other DNS failure on a fresh hostname: the exception is re-raised
and nothing is cached. -/
theorem get_mx_ip_other (env : Env) (hostname : String)
    (cache : MxDnsCache) (hdir : get_known_domain env hostname = none)
    (hc : List.lookup hostname cache = none)
    (h : env.dns hostname = .otherFailure) :
    get_mx_ip env hostname cache =
      (.error .dnsError, cache, [.dnsQuery hostname]) := by
  unfold get_mx_ip
  simp only [hdir, hc, h]

/-- An empty MX answer on a fresh hostname: an empty exchanger dictionary is
cached and returned. -/
theorem get_mx_ip_empty_answer (env : Env) (hostname : String)
    (cache : MxDnsCache) (hdir : get_known_domain env hostname = none)
    (hc : List.lookup hostname cache = none)
    (h : env.dns hostname = .answer []) :
    get_mx_ip env hostname cache =
      (.ok (.hosts []), dictInsert cache hostname (some []),
       [.dnsQuery hostname]) := by
  unfold get_mx_ip
  simp only [hdir, hc, h]
  rfl

/-- For a syntactically valid address, `validate_email` with `check_mx`
reduces to the classification of the `get_mx_ip` result. -/
theorem validate_email_mx_cases (env : Env) (email : String)
    (check_mx verify : Bool) (ad : Bool) (se : Option String) (st : Caches)
    (hm : matchesValidAddress email = true)
    (hcm : (check_mx || verify) = true) :
    validate_email env email check_mx verify ad se st =
      match get_mx_ip env (hostnameOf email) st.mxDns with
      | (.error e, dc, tr) => (.error e, { st with mxDns := dc }, tr)
      | (.ok .noSuchDomain, dc, tr) =>
          (.ok (some false), { st with mxDns := dc }, tr)
      | (.ok .indeterminate, dc, tr) =>
          (.ok none, { st with mxDns := dc }, tr)
      | (.ok (.hosts m), dc, tr) =>
          let t := probeLoop env verify (hostnameOf email) se st.mxCheck m
          (t.1, { mxDns := dc, mxCheck := t.2.1 }, tr ++ t.2.2) := by
  unfold validate_email
  rw [if_neg (by simp [hm])]
  simp only [is_disposable_eq_false, Bool.and_false, Bool.false_eq_true,
    if_false, hcm, if_true]

/-! ## The claims -/

/-- Claim C1.  The claim says a hostname with a Known-Domain Directory entry
makes `get_mx_ip` return that Directory record with no DNS MX query.  In the
source, the Directory-hit branch first logs
`pprint.pformat(known_doamin, indent=4)` (line 125) — `known_doamin` is an
undefined name — so the call raises `NameError` instead of returning the
record (no DNS query is issued, and the cache is untouched).  The claim is
right about the intent (the misspelling of `known_domain` is plainly a slip)
and the code is wrong: this theorem evaluates the code at the failing
input. -/
theorem get_mx_ip_directory_hit_raises :
    get_known_domain envDirectory "gmail.com" =
      some ("smtp.gmail.com",
        { domain := "gmail.com", username := some "enc-user",
          password := some "enc-pass", is_ssl := 1, port := 465 }) ∧
    get_mx_ip envDirectory "gmail.com" [] = (.error .nameError, [], []) := by
  exact ⟨by decide, by decide⟩

/-- Claim C2.  The claim says `is_disposable` splits at the last `'@'` and
answers true exactly when the trailing domain is in `_disposable`, and that
`validate_email` with disposables disallowed answers `False` for such an
address.  In the source, line 91 tests `email_domain in _disposable` where
`email_domain` is the two-element *list* returned by `rsplit` (line 90), so
the membership test always fails (and the `logger.warn` call on line 92
references an undefined name `domain`, showing the branch was never
exercised).  `"0-mail.com"` is in the set, yet `is_disposable` answers false
and `validate_email` with `allow_disposable=False` answers Valid: the claim
is right about the intent and the code is wrong. -/
theorem disposable_filter_never_fires :
    _disposable.contains "0-mail.com" = true ∧
    pyRsplitAt1 "a@0-mail.com" = ["a", "0-mail.com"] ∧
    is_disposable "a@0-mail.com" = false ∧
    validate_email envPlain "a@0-mail.com" false false false none ⟨[], []⟩ =
      (.ok (some true), ⟨[], []⟩, []) := by
  refine ⟨by rfl, by decide, is_disposable_eq_false _, ?_⟩
  have hm : matchesValidAddress "a@0-mail.com" = true := by decide
  simp [validate_email, hm, is_disposable_eq_false]

/-- Claim C3, counterexample.  The claim says an empty MX result yields
`NoSuchDomain` (cached, mapped to Invalid), and in particular that a domain
with no MX records yields Invalid.  In the code an empty MX answer falls
through the `for` loop of `get_mx_ip` (lines 136-147), is cached as an
*empty exchanger dictionary* (not the `None` marker), and `validate_email`'s
exchanger loop then runs zero iterations and returns `None` (line 270):
Unknown, not Invalid. -/
theorem empty_mx_not_invalid :
    validate_email envNoMx "a@nomx.test" true false true none ⟨[], []⟩ =
      (.ok none, ⟨[("nomx.test", some [])], []⟩, [.dnsQuery "nomx.test"]) ∧
    (Except.ok (none : Option Bool) : Except PyErr (Option Bool)) ≠
      .ok (some false) := by
  exact ⟨by decide, by decide⟩

/-- Claim C3, amended: name-not-found yields `NoSuchDomain` (cached, mapped
to Invalid); a query timeout yields `Indeterminate` (never cached, mapped to
Unknown); every other DNS failure propagates to the caller; an *empty* MX
answer, however, is cached as an empty exchanger set and mapped to Unknown,
not Invalid. -/
theorem dns_terminal_outcomes (env : Env) (email : String) (st : Caches)
    (ad : Bool) (se : Option String)
    (hm : matchesValidAddress email = true)
    (hdir : get_known_domain env (hostnameOf email) = none)
    (hc : List.lookup (hostnameOf email) st.mxDns = none) :
    (env.dns (hostnameOf email) = .nxdomain →
      validate_email env email true false ad se st =
        (.ok (some false),
         { st with mxDns := dictInsert st.mxDns (hostnameOf email) none },
         [.dnsQuery (hostnameOf email)])) ∧
    (env.dns (hostnameOf email) = .timeout →
      validate_email env email true false ad se st =
        (.ok none, st, [.dnsQuery (hostnameOf email)])) ∧
    (env.dns (hostnameOf email) = .otherFailure →
      validate_email env email true false ad se st =
        (.error .dnsError, st, [.dnsQuery (hostnameOf email)])) ∧
    (env.dns (hostnameOf email) = .answer [] →
      validate_email env email true false ad se st =
        (.ok none,
         { st with mxDns := dictInsert st.mxDns (hostnameOf email) (some []) },
         [.dnsQuery (hostnameOf email)])) := by
  refine ⟨fun h => ?_, fun h => ?_, fun h => ?_, fun h => ?_⟩ <;>
    rw [validate_email_mx_cases env email true false ad se st hm (by rfl)]
  · rw [get_mx_ip_nxdomain env (hostnameOf email) st.mxDns hdir hc h]
  · rw [get_mx_ip_timeout env (hostnameOf email) st.mxDns hdir hc h]
  · rw [get_mx_ip_other env (hostnameOf email) st.mxDns hdir hc h]
  · rw [get_mx_ip_empty_answer env (hostnameOf email) st.mxDns hdir hc h]
    rfl

/-- Claim C4: for every input string, a validate call (whatever the options)
answers Invalid (`False`) on a non-matching address rather than failing: the
failed `assert` of line 201 raises `AssertionError`, caught at line 271; no
network event occurs and the caches are untouched. -/
theorem nonmatching_address_returns_false (env : Env) (email : String)
    (check_mx verify allow_disposable : Bool) (se : Option String)
    (st : Caches) (h : matchesValidAddress email = false) :
    validate_email env email check_mx verify allow_disposable se st =
      (.ok (some false), st, []) := by
  simp [validate_email, h]

/-- Witness for C4 at the empty string. -/
theorem nonmatching_address_returns_false_witness :
    validate_email envPlain "" false false true none ⟨[], []⟩ =
      (.ok (some false), ⟨[], []⟩, []) :=
  nonmatching_address_returns_false envPlain "" false false true none
    ⟨[], []⟩ (by decide)

end ValidateEmail

namespace ValidateEmail

/-- Claim C3, witness: the four DNS outcomes at concrete hostnames. -/
theorem dns_terminal_outcomes_witness :
    validate_email envDnsCases "a@nx.test" true false true none ⟨[], []⟩ =
      (.ok (some false), ⟨[("nx.test", none)], []⟩, [.dnsQuery "nx.test"]) ∧
    validate_email envDnsCases "a@to.test" true false true none ⟨[], []⟩ =
      (.ok none, ⟨[], []⟩, [.dnsQuery "to.test"]) ∧
    validate_email envDnsCases "a@of.test" true false true none ⟨[], []⟩ =
      (.error .dnsError, ⟨[], []⟩, [.dnsQuery "of.test"]) ∧
    validate_email envDnsCases "a@nomx.test" true false true none ⟨[], []⟩ =
      (.ok none, ⟨[("nomx.test", some [])], []⟩, [.dnsQuery "nomx.test"]) := by
  refine ⟨?_, ?_, ?_, ?_⟩
  · exact (dns_terminal_outcomes envDnsCases "a@nx.test" ⟨[], []⟩ true none
      (by decide) (by rfl) (by rfl)).1 (by rfl)
  · exact (dns_terminal_outcomes envDnsCases "a@to.test" ⟨[], []⟩ true none
      (by decide) (by rfl) (by rfl)).2.1 (by rfl)
  · exact (dns_terminal_outcomes envDnsCases "a@of.test" ⟨[], []⟩ true none
      (by decide) (by rfl) (by rfl)).2.2.1 (by rfl)
  · exact (dns_terminal_outcomes envDnsCases "a@nomx.test" ⟨[], []⟩ true none
      (by decide) (by rfl) (by rfl)).2.2.2 (by rfl)

/-- Claim C5: with delivery verification, once a session reaches `rcpt`
(connect succeeded, no credentials, `helo` and `mail` answered 250), a 250
reply returns Valid at once, a 550 reply returns Invalid at once — in both
cases only this exchanger was contacted, whatever exchangers remain — and
any other reply moves on to the next exchanger. -/
theorem rcpt_reply_three_way (env : Env) (hostname : String)
    (sending : Option String) (cc : MxCheckCache) (mx : String)
    (opts : MXOptions) (rest : List (String × MXOptions))
    (hcon : (env.smtp mx).connect = .ok)
    (hcred : (pyTruthy opts.username && pyTruthy opts.password) = false)
    (hhelo : (env.smtp mx).helo = .reply 250)
    (hmail : (env.smtp mx).mail = .reply 250) :
    ((env.smtp mx).rcpt = .reply 250 →
      probeLoop env true hostname sending cc ((mx, opts) :: rest) =
        (.ok (some true), dictInsert cc mx true, [.smtpConnect mx])) ∧
    ((env.smtp mx).rcpt = .reply 550 →
      probeLoop env true hostname sending cc ((mx, opts) :: rest) =
        (.ok (some false), dictInsert cc mx true, [.smtpConnect mx])) ∧
    (∀ r, r ≠ 250 → r ≠ 550 → (env.smtp mx).rcpt = .reply r →
      probeLoop env true hostname sending cc ((mx, opts) :: rest) =
        (let t := probeLoop env true hostname
            (senderAfterHelo hostname sending opts) (dictInsert cc mx true) rest
         (t.1, t.2.1, .smtpConnect mx :: t.2.2))) := by
  have hps := probeStep_session_rcpt env hostname sending cc mx opts
    hcon hcred hhelo hmail
  refine ⟨fun hr => ?_, fun hr => ?_, fun r h1 h2 hr => ?_⟩
  · unfold probeLoop
    rw [hps, hr]
    dsimp only
    rw [check_command_of_250]
  · unfold probeLoop
    rw [hps, hr]
    dsimp only
    rw [check_command_of_550]
  · conv_lhs => rw [probeLoop]
    rw [hps, hr]
    dsimp only
    rw [check_command_neither r h1 h2]
    rfl

/-- Claim C5, witness: first exchanger answers 550 on `rcpt`, so probing
stops with Invalid and the second exchanger is never contacted (the spec's
Scenario F). -/
theorem rcpt_reply_three_way_witness :
    probeLoop envRcpt550 true "d.test" none []
        [("mx1.test", optsPlain), ("mx2.test", optsPlain)] =
      (.ok (some false), [("mx1.test", true)], [.smtpConnect "mx1.test"]) :=
  (rcpt_reply_three_way envRcpt550 "d.test" none [] "mx1.test" optsPlain
    [("mx2.test", optsPlain)] rfl rfl rfl rfl).2.1 rfl

/-- Claim C6, counterexample.  The claim says a second delivery-depth
(`verify=true`) call for an exchanger already recorded as reachable returns
the cached boolean with no new connection.  In the source the cache guard
(line 217) requires `not verify`, so a `verify=true` call ignores the
reachability cache: here `mx1.test` is cached as reachable (`True`), yet the
call connects to it again (the `smtpConnect` event) and returns `False`
from its 550 `rcpt` reply rather than the cached `True`. -/
theorem verify_call_ignores_reachability_cache :
    List.lookup "mx1.test" stVerifiedCache.mxCheck = some true ∧
    validate_email envRcpt550 "a@d.test" true true true none stVerifiedCache =
      (.ok (some false), stVerifiedCache, [.smtpConnect "mx1.test"]) := by
  exact ⟨by rfl, by decide⟩

/-- Claim C6, amended: only when full delivery verification is *not*
requested does a reachability-cache hit return the cached boolean
immediately, with no network contact; a `verify=true` call ignores the
cache and contacts the exchanger afresh. -/
theorem cache_hit_without_verify_returns_cached (env : Env)
    (hostname : String) (sending : Option String) (cc : MxCheckCache)
    (mx : String) (opts : MXOptions) (rest : List (String × MXOptions))
    (b : Bool) (h : List.lookup mx cc = some b) :
    probeLoop env false hostname sending cc ((mx, opts) :: rest) =
      (.ok (some b), cc, []) := by
  unfold probeLoop probeStep
  rw [h]

/-- Claim C6, witness: a cached reachable exchanger and `verify=false`. -/
theorem cache_hit_without_verify_returns_cached_witness :
    probeLoop envRcpt550 false "d.test" none [("mx1.test", true)]
        [("mx1.test", optsPlain)] =
      (.ok (some true), [("mx1.test", true)], []) :=
  cache_hit_without_verify_returns_cached envRcpt550 "d.test" none
    [("mx1.test", true)] "mx1.test" optsPlain [] true rfl

/-- Claim C7: with delivery verification, if every exchanger in the resolved
set is non-terminal (connect failures, protocol rejections, non-terminal
replies), the loop ends with the overall `None`; and at the `validate_email`
level such a call returns Unknown (`None`). -/
theorem exhausted_exchangers_unknown (env : Env) :
    (∀ (hostname : String) (m : List (String × MXOptions))
       (sending : Option String) (cc : MxCheckCache),
       (∀ p ∈ m, stepNonTerminal p.2 (env.smtp p.1) = true) →
       ∃ cc' tr, probeLoop env true hostname sending cc m =
         (.ok none, cc', tr)) ∧
    (∀ (email : String) (st : Caches) (ad : Bool) (se : Option String)
       (m : List (String × MXOptions)),
       matchesValidAddress email = true →
       get_known_domain env (hostnameOf email) = none →
       List.lookup (hostnameOf email) st.mxDns = some (some m) →
       (∀ p ∈ m, stepNonTerminal p.2 (env.smtp p.1) = true) →
       ∃ st' tr, validate_email env email true true ad se st =
         (.ok none, st', tr)) := by
  refine ⟨fun hostname m sending cc h =>
    probeLoop_nonTerminal env hostname m sending cc h, ?_⟩
  intro email st ad se m hm hdir hlook hall
  rw [validate_email_mx_cases env email true true ad se st hm (by rfl)]
  have hget : get_mx_ip env (hostnameOf email) st.mxDns =
      (.ok (.hosts m), st.mxDns, []) := by
    unfold get_mx_ip
    simp only [hdir, hlook]
  rw [hget]
  obtain ⟨cc', tr, hpl⟩ :=
    probeLoop_nonTerminal env (hostnameOf email) m se st.mxCheck hall
  refine ⟨{ mxDns := st.mxDns, mxCheck := cc' }, tr, ?_⟩
  dsimp only
  rw [hpl]
  rfl

/-- Claim C7, witness: one exchanger refusing connections and one rejecting
`helo` with a non-terminal `rcpt` reply. -/
theorem exhausted_exchangers_unknown_witness :
    ∃ cc' tr, probeLoop envNonTerm true "d.test" none []
        [("mx1.test", optsPlain), ("mx2.test", optsPlain)] =
      (.ok none, cc', tr) :=
  (exhausted_exchangers_unknown envNonTerm).1 "d.test"
    [("mx1.test", optsPlain), ("mx2.test", optsPlain)] none [] (by decide)

/-- Claim C8: validating a syntactically valid, non-disposable address with
`check_mx=false` and `verify=false` returns Valid, leaves the caches
untouched and performs no network event — and therefore a second identical
call (on the state the first returned) does exactly the same. -/
theorem no_mx_check_idempotent_valid (env : Env) (email : String)
    (ad : Bool) (se : Option String) (st : Caches)
    (hm : matchesValidAddress email = true)
    (hd : is_disposable email = false) :
    validate_email env email false false ad se st =
      (.ok (some true), st, []) ∧
    validate_email env email false false ad se
        (validate_email env email false false ad se st).2.1 =
      (.ok (some true), st, []) := by
  have h1 : validate_email env email false false ad se st =
      (.ok (some true), st, []) := by
    simp [validate_email, hm, hd]
  refine ⟨h1, ?_⟩
  rw [h1]
  exact h1

/-- Claim C8, witness. -/
theorem no_mx_check_idempotent_valid_witness :
    validate_email envPlain "user@foo.example" false false true none
        ⟨[], []⟩ = (.ok (some true), ⟨[], []⟩, []) :=
  (no_mx_check_idempotent_valid envPlain "user@foo.example" true none
    ⟨[], []⟩ (by decide) (is_disposable_eq_false _)).1

/-- Claim C9: if every boolean in the reachability cache is `True`, it still
is after any `validate_email` call — the only write (line 234) stores
`True`, after connect (and login, when required) succeeded; connect and
authentication failures store nothing.  So a cache hit can never produce a
`False` verdict. -/
theorem reachability_cache_only_true (env : Env) (email : String)
    (check_mx verify allow_disposable : Bool) (se : Option String)
    (st : Caches) (h : cacheAllTrue st.mxCheck) :
    cacheAllTrue
      (validate_email env email check_mx verify allow_disposable se
        st).2.1.mxCheck := by
  unfold validate_email
  split
  · exact h
  · dsimp only
    split
    · exact h
    · split
      · split
        · exact h
        · exact h
        · exact h
        · exact probeLoop_cache_allTrue env _ _ _ _ _ h
      · exact h

/-- Claim C9, witness. -/
theorem reachability_cache_only_true_witness :
    cacheAllTrue
      (validate_email envRcpt550 "a@d.test" true true true none
        stVerifiedCache).2.1.mxCheck :=
  reachability_cache_only_true envRcpt550 "a@d.test" true true true none
    stVerifiedCache
    ((by decide : ∀ p ∈ stVerifiedCache.mxCheck, p.2 = true) : cacheAllTrue _)

/-- Claim C10: a call with `check_mx=false` and `verify=false` never touches
either cache and performs no network event, whatever the input and
environment: only the exchanger-checking branch writes to them. -/
theorem no_mx_check_frame (env : Env) (email : String) (ad : Bool)
    (se : Option String) (st : Caches) :
    ∃ r, validate_email env email false false ad se st = (.ok r, st, []) := by
  by_cases hm : matchesValidAddress email = false
  · exact ⟨some false, by simp [validate_email, hm]⟩
  · exact ⟨some true, by simp [validate_email, hm, is_disposable_eq_false]⟩

end ValidateEmail
